import Mathlib

/-!
Shallow embedding of the motion-phase segmentation and kinematic scoring
engine of the tennis-serve analyzer (source of authority:
`src/services/motion_analyzer-backup.py` together with
`src/services/follow_through_analyzer.py`).

Modelling conventions:
* Python floats are modelled as exact rationals (`ℚ`) where the source only
  performs field arithmetic and comparisons, and as real numbers (`ℝ`) where
  the source calls `sqrt`, `arccos` or `atan2`.
* Python `None` is `Option.none`; a landmark dictionary is a record of
  `Option Landmark` fields; a missing `timestamp` key is `Option.none`.
* `raise ValueError(msg)` is `Except.error msg`.
* Frame indices are integers (`ℤ`): the source computes phase boundaries
  that can be negative (for example `contact_frame - 10`).
-/

/-- One detected landmark sample.  The source only ever reads the `x` and `y`
coordinates of a landmark (the `z` and `visibility` entries are never used by
the analyzed code), so only those are modelled. -/
structure Landmark where
  x : ℚ
  y : ℚ
  deriving DecidableEq, Repr

/-- The landmark dictionary of one frame: each name maps to an optional
landmark sample (absent key = `none`).  Only the names read by the analyzer
are modelled. -/
structure Landmarks where
  right_wrist : Option Landmark := none
  left_wrist : Option Landmark := none
  right_elbow : Option Landmark := none
  right_shoulder : Option Landmark := none
  left_shoulder : Option Landmark := none
  right_hip : Option Landmark := none
  left_hip : Option Landmark := none
  right_knee : Option Landmark := none
  left_knee : Option Landmark := none
  right_ankle : Option Landmark := none
  left_ankle : Option Landmark := none
  deriving DecidableEq, Repr

/-- One frame of the pose sequence: `timestamp` models the optional
`'timestamp'` dictionary key, `has_pose` the `'has_pose'` flag. -/
structure Frame where
  timestamp : Option ℚ := none
  has_pose : Bool := false
  landmarks : Landmarks := {}
  deriving DecidableEq, Repr

/-- A serve phase as produced by the segmenter (dataclass `ServePhase`). -/
structure ServePhase where
  name : String
  start_frame : ℤ
  end_frame : ℤ
  duration : ℚ
  key_events : List String
  deriving DecidableEq, Repr

/-- Python `int()` applied to a rational: truncation toward zero. -/
def pyInt (q : ℚ) : ℤ :=
  if 0 ≤ q then ⌊q⌋ else ⌈q⌉

/-- The number of frames of a pose sequence whose `has_pose` flag is set
(`detected_frames` in `analyze_serve_motion`). -/
def detectedCount (poseResults : List Frame) : ℕ :=
  (poseResults.filter (fun r => r.has_pose)).length

/-- `MotionAnalyzer._extract_landmark_trajectory`: per-frame optional landmark,
aligned with the pose sequence.  The source appends the landmark when
`has_pose` holds and the name is present, `None` otherwise; when `has_pose`
holds but the name is absent the selector already yields `none`. -/
def extractLandmarkTrajectory (poseResults : List Frame)
    (name : Landmarks → Option Landmark) : List (Option Landmark) :=
  poseResults.map (fun r => if r.has_pose then name r.landmarks else none)

/-- Auxiliary recursion for `np.argmin`: carries the best value, its index and
the index of the next element; a strictly smaller element replaces the best,
so the first minimum wins, as in numpy. -/
def argminGo (best : ℚ) (bestIdx cur : ℕ) : List ℚ → ℕ
  | [] => bestIdx
  | x :: xs => if x < best then argminGo x cur (cur + 1) xs
               else argminGo best bestIdx (cur + 1) xs

/-- `np.argmin` on a rational list: index of the first minimum (`0` on the
empty list, which the source never passes). -/
def argminIdx : List ℚ → ℕ
  | [] => 0
  | x :: xs => argminGo x 0 1 xs

/-- The fixed phase-name order (`self.serve_phases`). -/
def servePhaseNames : List String :=
  ["preparation", "ball_toss", "trophy_position", "acceleration", "contact",
   "follow_through"]

/-- The fallback split ratios (`phase_lengths` in `_create_fallback_phases`). -/
def fallbackRatios : List ℚ := [0.15, 0.20, 0.25, 0.15, 0.05, 0.20]

/-- Loop body of `_create_fallback_phases`: walks the zipped
name/ratio list keeping the running `current_frame`; the last phase absorbs
the remainder (`if i == len(self.serve_phases) - 1`). -/
def fallbackGo (totalFrames current : ℤ) : List (String × ℚ) → List ServePhase
  | [] => []
  | (n, ratio) :: rest =>
    let len : ℤ :=
      if rest = [] then totalFrames - current else pyInt ((totalFrames : ℚ) * ratio)
    { name := n, start_frame := current, end_frame := current + len - 1,
      duration := (len : ℚ) / 30, key_events := [] } ::
      fallbackGo totalFrames (current + len) rest

/-- `MotionAnalyzer._create_fallback_phases`. -/
def createFallbackPhases (totalFrames : ℤ) : List ServePhase :=
  fallbackGo totalFrames 0 (servePhaseNames.zip fallbackRatios)

/-- The `y` values of the valid points of a trajectory
(`[point['y'] for point in trajectory if point is not None]`). -/
def validHeights (traj : List (Option Landmark)) : List ℚ :=
  traj.reduceOption.map (fun p => p.y)

/-- `MotionAnalyzer.identify_serve_phases`.  The `try` block of the source
cannot raise (all list accesses are guarded), so the `except` fallback is
unreachable and not modelled. -/
def identifyServePhases (poseResults : List Frame) : List ServePhase :=
  let totalFrames : ℤ := poseResults.length
  let rightWristTrajectory := extractLandmarkTrajectory poseResults (fun l => l.right_wrist)
  let leftWristTrajectory := extractLandmarkTrajectory poseResults (fun l => l.left_wrist)
  if rightWristTrajectory = [] ∨ leftWristTrajectory = [] then
    createFallbackPhases totalFrames
  else
    let validRightWrist := rightWristTrajectory.reduceOption
    let validLeftWrist := leftWristTrajectory.reduceOption
    if validRightWrist.length < 10 ∨ validLeftWrist.length < 10 then
      createFallbackPhases totalFrames
    else
      let leftWristHeights := validHeights leftWristTrajectory
      let tossPeakFrame : ℤ :=
        if leftWristHeights ≠ [] then argminIdx leftWristHeights
        else totalFrames / 3
      let rightWristHeights := validHeights rightWristTrajectory
      let contactFrame : ℤ :=
        if rightWristHeights ≠ [] then argminIdx rightWristHeights
        else totalFrames * 2 / 3
      let preparationEnd := max 1 (tossPeakFrame - 20)
      let ballTossEnd := tossPeakFrame + 5
      let trophyPositionEnd := contactFrame - 10
      let accelerationEnd := contactFrame + 2
      let contactEnd := contactFrame + 5
      let fps : ℚ := 30
      [ { name := "preparation", start_frame := 0, end_frame := preparationEnd,
          duration := ((preparationEnd : ℚ) - 0) / fps,
          key_events := ["stance_setup", "initial_position"] },
        { name := "ball_toss", start_frame := preparationEnd, end_frame := ballTossEnd,
          duration := ((ballTossEnd : ℚ) - (preparationEnd : ℚ)) / fps,
          key_events := ["toss_initiation", "ball_release"] },
        { name := "trophy_position", start_frame := ballTossEnd, end_frame := trophyPositionEnd,
          duration := ((trophyPositionEnd : ℚ) - (ballTossEnd : ℚ)) / fps,
          key_events := ["trophy_formation", "weight_transfer"] },
        { name := "acceleration", start_frame := trophyPositionEnd, end_frame := accelerationEnd,
          duration := ((accelerationEnd : ℚ) - (trophyPositionEnd : ℚ)) / fps,
          key_events := ["racket_acceleration", "kinetic_chain"] },
        { name := "contact", start_frame := accelerationEnd, end_frame := contactEnd,
          duration := ((contactEnd : ℚ) - (accelerationEnd : ℚ)) / fps,
          key_events := ["ball_contact", "maximum_reach"] },
        { name := "follow_through", start_frame := contactEnd, end_frame := totalFrames - 1,
          duration := ((totalFrames : ℚ) - 1 - (contactEnd : ℚ)) / fps,
          key_events := ["deceleration", "landing"] } ]

/-- The concrete 150-frame scenario frame: pose detected everywhere, right
wrist moving smoothly right and up (decreasing `y`), left wrist rising. -/
def scenarioFrame (i : ℕ) : Frame :=
  { timestamp := some ((i : ℚ) / 30), has_pose := true,
    landmarks := { right_wrist := some ⟨1/2 + (i : ℚ) / 100, 1/2 - (i : ℚ) / 200⟩,
                   left_wrist := some ⟨2/5 - (i : ℚ) / 200, 3/5 - (i : ℚ) / 100⟩ } }

/-- The concrete 150-frame scenario pose sequence. -/
def scenarioInput : List Frame := (List.range 150).map scenarioFrame

lemma reduceOption_map_some {α β : Type} (l : List α) (f : α → β) :
    (l.map (fun a => some (f a))).reduceOption = l.map f := by
  induction l with
  | nil => rfl
  | cons a as ih => simp [List.reduceOption_cons_of_some, ih]

lemma length_reduceOption_of_isSome {α : Type} (l : List (Option α))
    (h : ∀ x ∈ l, x.isSome = true) : l.reduceOption.length = l.length := by
  induction l with
  | nil => rfl
  | cons a as ih =>
    cases a with
    | none => exact absurd (h none (by simp)) (by simp)
    | some b =>
      simp only [List.reduceOption_cons_of_some, List.length_cons]
      exact congrArg (· + 1) (ih fun x hx => h x (by simp [hx]))

lemma argminGo_chain (xs : List ℚ) (b : ℚ) (bi c : ℕ) (hne : xs ≠ [])
    (hch : List.Chain' (fun a b => a > b) (b :: xs)) :
    argminGo b bi c xs = c + xs.length - 1 := by
  induction xs generalizing b bi c with
  | nil => exact absurd rfl hne
  | cons x xs' ih =>
    have hbx : b > x := (List.chain'_cons.mp hch).1
    have hch' : List.Chain' (fun a b => a > b) (x :: xs') := (List.chain'_cons.mp hch).2
    simp only [argminGo, if_pos hbx]
    cases xs' with
    | nil => simp [argminGo]
    | cons y ys =>
      rw [ih x c (c + 1) (by simp) hch']
      simp only [List.length_cons]
      omega

lemma argminIdx_chain (l : List ℚ) (hne : l ≠ [])
    (hch : List.Chain' (fun a b => a > b) l) : argminIdx l = l.length - 1 := by
  cases l with
  | nil => exact absurd rfl hne
  | cons x xs =>
    cases xs with
    | nil => simp [argminIdx, argminGo]
    | cons y ys =>
      simp only [argminIdx]
      rw [argminGo_chain (y :: ys) x 0 1 (by simp) hch]
      simp only [List.length_cons]
      omega

lemma identify_phases_primary (ps : List Frame) (h150 : ps.length = 150)
    (hpose : ∀ fr ∈ ps, fr.has_pose = true)
    (hrw : ∀ fr ∈ ps, (fr.landmarks.right_wrist).isSome = true)
    (hlw : 10 ≤ (extractLandmarkTrajectory ps (fun l => l.left_wrist)).reduceOption.length)
    (hdec : List.Chain' (fun a b => a > b)
      (validHeights (extractLandmarkTrajectory ps (fun l => l.right_wrist)))) :
    (identifyServePhases ps).map (fun p => (p.name, p.start_frame, p.end_frame)) =
      [("preparation", (0 : ℤ),
          max 1 ((argminIdx (validHeights (extractLandmarkTrajectory ps (fun l => l.left_wrist))) : ℤ) - 20)),
       ("ball_toss",
          max 1 ((argminIdx (validHeights (extractLandmarkTrajectory ps (fun l => l.left_wrist))) : ℤ) - 20),
          (argminIdx (validHeights (extractLandmarkTrajectory ps (fun l => l.left_wrist))) : ℤ) + 5),
       ("trophy_position",
          (argminIdx (validHeights (extractLandmarkTrajectory ps (fun l => l.left_wrist))) : ℤ) + 5, 139),
       ("acceleration", 139, 151),
       ("contact", 151, 154),
       ("follow_through", 154, 149)] := by
  have hRtraj : extractLandmarkTrajectory ps (fun l => l.right_wrist) =
      ps.map (fun r => r.landmarks.right_wrist) := by
    unfold extractLandmarkTrajectory
    exact List.map_congr_left (fun r hr => by rw [hpose r hr]; simp)
  have hRlen : (extractLandmarkTrajectory ps (fun l => l.right_wrist)).length = 150 := by
    rw [hRtraj, List.length_map, h150]
  have hLlen : (extractLandmarkTrajectory ps (fun l => l.left_wrist)).length = 150 := by
    unfold extractLandmarkTrajectory
    rw [List.length_map, h150]
  have hRvalid : (extractLandmarkTrajectory ps (fun l => l.right_wrist)).reduceOption.length = 150 := by
    rw [hRtraj]
    rw [length_reduceOption_of_isSome]
    · rw [List.length_map, h150]
    · intro x hx
      obtain ⟨r, hr, hrx⟩ := List.mem_map.mp hx
      rw [← hrx]; exact hrw r hr
  have hRheightsLen : (validHeights (extractLandmarkTrajectory ps (fun l => l.right_wrist))).length = 150 := by
    unfold validHeights
    rw [List.length_map, hRvalid]
  have hLheightsLen : 10 ≤ (validHeights (extractLandmarkTrajectory ps (fun l => l.left_wrist))).length := by
    unfold validHeights
    rw [List.length_map]
    exact hlw
  have hContact : argminIdx (validHeights (extractLandmarkTrajectory ps (fun l => l.right_wrist))) = 149 := by
    rw [argminIdx_chain _ (by rw [← List.length_pos_iff_ne_nil]; omega) hdec, hRheightsLen]
  have hLne : validHeights (extractLandmarkTrajectory ps (fun l => l.left_wrist)) ≠ [] := by
    rw [← List.length_pos_iff_ne_nil]; omega
  have hRne : validHeights (extractLandmarkTrajectory ps (fun l => l.right_wrist)) ≠ [] := by
    rw [← List.length_pos_iff_ne_nil]; omega
  unfold identifyServePhases
  rw [if_neg, if_neg]
  · simp only [if_pos hLne, if_pos hRne, hContact, h150, List.map_cons, List.map_nil]
    norm_num
  · push_neg
    constructor
    · omega
    · omega
  · push_neg
    constructor
    · rw [← List.length_pos_iff_ne_nil]; omega
    · rw [← List.length_pos_iff_ne_nil]; omega

lemma scenario_length : scenarioInput.length = 150 := by
  simp [scenarioInput]

lemma scenario_pose : ∀ fr ∈ scenarioInput, fr.has_pose = true := by
  intro fr hfr
  obtain ⟨i, _, hi⟩ := List.mem_map.mp hfr
  rw [← hi]; rfl

lemma scenario_rw_some : ∀ fr ∈ scenarioInput, (fr.landmarks.right_wrist).isSome = true := by
  intro fr hfr
  obtain ⟨i, _, hi⟩ := List.mem_map.mp hfr
  rw [← hi]; rfl

lemma scenario_right_traj :
    extractLandmarkTrajectory scenarioInput (fun l => l.right_wrist) =
      (List.range 150).map (fun i : ℕ => some ⟨1/2 + (i : ℚ) / 100, 1/2 - (i : ℚ) / 200⟩) := by
  unfold extractLandmarkTrajectory scenarioInput scenarioFrame
  rw [List.map_map]
  rfl

lemma scenario_left_traj :
    extractLandmarkTrajectory scenarioInput (fun l => l.left_wrist) =
      (List.range 150).map (fun i : ℕ => some ⟨2/5 - (i : ℚ) / 200, 3/5 - (i : ℚ) / 100⟩) := by
  unfold extractLandmarkTrajectory scenarioInput scenarioFrame
  rw [List.map_map]
  rfl

lemma scenario_left_ge10 :
    10 ≤ (extractLandmarkTrajectory scenarioInput (fun l => l.left_wrist)).reduceOption.length := by
  rw [scenario_left_traj, reduceOption_map_some]
  simp

lemma scenario_right_heights :
    validHeights (extractLandmarkTrajectory scenarioInput (fun l => l.right_wrist)) =
      (List.range 150).map (fun i : ℕ => 1/2 - (i : ℚ) / 200) := by
  unfold validHeights
  rw [scenario_right_traj, reduceOption_map_some, List.map_map]
  rfl

lemma scenario_left_heights :
    validHeights (extractLandmarkTrajectory scenarioInput (fun l => l.left_wrist)) =
      (List.range 150).map (fun i : ℕ => 3/5 - (i : ℚ) / 100) := by
  unfold validHeights
  rw [scenario_left_traj, reduceOption_map_some, List.map_map]
  rfl

lemma scenario_right_chain :
    List.Chain' (fun a b => a > b)
      (validHeights (extractLandmarkTrajectory scenarioInput (fun l => l.right_wrist))) := by
  rw [scenario_right_heights,
    List.chain'_map (fun i : ℕ => 1/2 - (i : ℚ) / 200)]
  rw [show (150 : ℕ) = 149 + 1 from rfl, List.chain'_range_succ]
  intro m _
  push_cast
  linarith

lemma scenario_left_chain :
    List.Chain' (fun a b => a > b)
      (validHeights (extractLandmarkTrajectory scenarioInput (fun l => l.left_wrist))) := by
  rw [scenario_left_heights,
    List.chain'_map (fun i : ℕ => 3/5 - (i : ℚ) / 100)]
  rw [show (150 : ℕ) = 149 + 1 from rfl, List.chain'_range_succ]
  intro m _
  push_cast
  linarith

lemma scenario_x_chain :
    List.Chain' (fun a b => a < b)
      ((extractLandmarkTrajectory scenarioInput (fun l => l.right_wrist)).reduceOption.map
        (fun p => p.x)) := by
  rw [scenario_right_traj, reduceOption_map_some, List.map_map]
  rw [show ((fun p => p.x) ∘ fun i : ℕ => (⟨1/2 + (i : ℚ) / 100, 1/2 - (i : ℚ) / 200⟩ : Landmark)) =
    fun i : ℕ => 1/2 + (i : ℚ) / 100 from rfl]
  rw [List.chain'_map (fun i : ℕ => 1/2 + (i : ℚ) / 100)]
  rw [show (150 : ℕ) = 149 + 1 from rfl, List.chain'_range_succ]
  intro m _
  push_cast
  linarith

/-- Claim C1 counterexample: on the concrete 150-frame scenario pose sequence
(pose detected on every frame, right-wrist x strictly increasing and y
strictly decreasing), the six phases produced by the segmenter do NOT all
satisfy end_frame > start_frame. -/
theorem c1_counterexample :
    ¬ (∀ p ∈ identifyServePhases scenarioInput, p.start_frame < p.end_frame) := by
  intro hall
  have h := identify_phases_primary scenarioInput scenario_length scenario_pose
    scenario_rw_some scenario_left_ge10 scenario_right_chain
  have hmem : ("follow_through", (154 : ℤ), (149 : ℤ)) ∈
      (identifyServePhases scenarioInput).map (fun p => (p.name, p.start_frame, p.end_frame)) := by
    rw [h]; simp
  obtain ⟨p, hp, he⟩ := List.mem_map.mp hmem
  have h1 : p.start_frame = 154 := congrArg (fun t => t.2.1) he
  have h2 : p.end_frame = 149 := congrArg (fun t => t.2.2) he
  have := hall p hp
  omega

/-- Claim C1 (amended): for every 150-frame pose sequence with pose detected
on every frame, the right wrist present everywhere with strictly increasing x
and strictly decreasing y, and at least 10 valid left-wrist samples, the
segmenter takes the anchor-based path and produces the six phases in the
fixed order with the boundary offsets derived from the two wrist-extremum
anchors (toss apex = argmin of left-wrist y, contact = argmin of right-wrist
y = frame 149); but the phases are NOT all non-empty: contact_end =
contact + 5 = 154 exceeds total_frames - 1 = 149, so the follow_through
phase has end_frame < start_frame. -/
theorem c1_amended_boundaries (ps : List Frame) (h150 : ps.length = 150)
    (hpose : ∀ fr ∈ ps, fr.has_pose = true)
    (hrw : ∀ fr ∈ ps, (fr.landmarks.right_wrist).isSome = true)
    (_hinc : List.Chain' (fun a b => a < b)
      ((extractLandmarkTrajectory ps (fun l => l.right_wrist)).reduceOption.map (fun p => p.x)))
    (hlw : 10 ≤ (extractLandmarkTrajectory ps (fun l => l.left_wrist)).reduceOption.length)
    (hdec : List.Chain' (fun a b => a > b)
      (validHeights (extractLandmarkTrajectory ps (fun l => l.right_wrist)))) :
    ((identifyServePhases ps).map (fun p => (p.name, p.start_frame, p.end_frame)) =
      [("preparation", (0 : ℤ),
          max 1 ((argminIdx (validHeights (extractLandmarkTrajectory ps (fun l => l.left_wrist))) : ℤ) - 20)),
       ("ball_toss",
          max 1 ((argminIdx (validHeights (extractLandmarkTrajectory ps (fun l => l.left_wrist))) : ℤ) - 20),
          (argminIdx (validHeights (extractLandmarkTrajectory ps (fun l => l.left_wrist))) : ℤ) + 5),
       ("trophy_position",
          (argminIdx (validHeights (extractLandmarkTrajectory ps (fun l => l.left_wrist))) : ℤ) + 5, 139),
       ("acceleration", 139, 151),
       ("contact", 151, 154),
       ("follow_through", 154, 149)]) ∧
    ¬ (∀ p ∈ identifyServePhases ps, p.start_frame < p.end_frame) := by
  have h := identify_phases_primary ps h150 hpose hrw hlw hdec
  refine ⟨h, fun hall => ?_⟩
  have hmem : ("follow_through", (154 : ℤ), (149 : ℤ)) ∈
      (identifyServePhases ps).map (fun p => (p.name, p.start_frame, p.end_frame)) := by
    rw [h]; simp
  obtain ⟨p, hp, he⟩ := List.mem_map.mp hmem
  have h1 : p.start_frame = 154 := congrArg (fun t => t.2.1) he
  have h2 : p.end_frame = 149 := congrArg (fun t => t.2.2) he
  have := hall p hp
  omega

/-- Witness for the amended C1 theorem: the concrete scenario input satisfies
all of its hypotheses. -/
theorem c1_witness :
    ((identifyServePhases scenarioInput).map (fun p => (p.name, p.start_frame, p.end_frame)) =
      [("preparation", (0 : ℤ),
          max 1 ((argminIdx (validHeights (extractLandmarkTrajectory scenarioInput (fun l => l.left_wrist))) : ℤ) - 20)),
       ("ball_toss",
          max 1 ((argminIdx (validHeights (extractLandmarkTrajectory scenarioInput (fun l => l.left_wrist))) : ℤ) - 20),
          (argminIdx (validHeights (extractLandmarkTrajectory scenarioInput (fun l => l.left_wrist))) : ℤ) + 5),
       ("trophy_position",
          (argminIdx (validHeights (extractLandmarkTrajectory scenarioInput (fun l => l.left_wrist))) : ℤ) + 5, 139),
       ("acceleration", 139, 151),
       ("contact", 151, 154),
       ("follow_through", 154, 149)]) ∧
    ¬ (∀ p ∈ identifyServePhases scenarioInput, p.start_frame < p.end_frame) :=
  c1_amended_boundaries scenarioInput scenario_length scenario_pose scenario_rw_some
    scenario_x_chain scenario_left_ge10 scenario_right_chain

lemma pyInt_nonneg (q : ℚ) (h : 0 ≤ q) : 0 ≤ pyInt q := by
  unfold pyInt
  rw [if_pos h]
  exact Int.floor_nonneg.mpr h

lemma pyInt_le (q : ℚ) (h : 0 ≤ q) : (pyInt q : ℚ) ≤ q := by
  unfold pyInt
  rw [if_pos h]
  exact_mod_cast Int.floor_le q

lemma createFallbackPhases_eq (total : ℤ) : createFallbackPhases total =
    [⟨"preparation", 0, 0 + pyInt ((total : ℚ) * 0.15) - 1,
        ((pyInt ((total : ℚ) * 0.15) : ℤ) : ℚ) / 30, []⟩,
     ⟨"ball_toss", 0 + pyInt ((total : ℚ) * 0.15),
        0 + pyInt ((total : ℚ) * 0.15) + pyInt ((total : ℚ) * 0.20) - 1,
        ((pyInt ((total : ℚ) * 0.20) : ℤ) : ℚ) / 30, []⟩,
     ⟨"trophy_position", 0 + pyInt ((total : ℚ) * 0.15) + pyInt ((total : ℚ) * 0.20),
        0 + pyInt ((total : ℚ) * 0.15) + pyInt ((total : ℚ) * 0.20) + pyInt ((total : ℚ) * 0.25) - 1,
        ((pyInt ((total : ℚ) * 0.25) : ℤ) : ℚ) / 30, []⟩,
     ⟨"acceleration",
        0 + pyInt ((total : ℚ) * 0.15) + pyInt ((total : ℚ) * 0.20) + pyInt ((total : ℚ) * 0.25),
        0 + pyInt ((total : ℚ) * 0.15) + pyInt ((total : ℚ) * 0.20) + pyInt ((total : ℚ) * 0.25) +
          pyInt ((total : ℚ) * 0.15) - 1,
        ((pyInt ((total : ℚ) * 0.15) : ℤ) : ℚ) / 30, []⟩,
     ⟨"contact",
        0 + pyInt ((total : ℚ) * 0.15) + pyInt ((total : ℚ) * 0.20) + pyInt ((total : ℚ) * 0.25) +
          pyInt ((total : ℚ) * 0.15),
        0 + pyInt ((total : ℚ) * 0.15) + pyInt ((total : ℚ) * 0.20) + pyInt ((total : ℚ) * 0.25) +
          pyInt ((total : ℚ) * 0.15) + pyInt ((total : ℚ) * 0.05) - 1,
        ((pyInt ((total : ℚ) * 0.05) : ℤ) : ℚ) / 30, []⟩,
     ⟨"follow_through",
        0 + pyInt ((total : ℚ) * 0.15) + pyInt ((total : ℚ) * 0.20) + pyInt ((total : ℚ) * 0.25) +
          pyInt ((total : ℚ) * 0.15) + pyInt ((total : ℚ) * 0.05),
        0 + pyInt ((total : ℚ) * 0.15) + pyInt ((total : ℚ) * 0.20) + pyInt ((total : ℚ) * 0.25) +
          pyInt ((total : ℚ) * 0.15) + pyInt ((total : ℚ) * 0.05) +
          (total - (0 + pyInt ((total : ℚ) * 0.15) + pyInt ((total : ℚ) * 0.20) +
            pyInt ((total : ℚ) * 0.25) + pyInt ((total : ℚ) * 0.15) + pyInt ((total : ℚ) * 0.05))) - 1,
        ((total - (0 + pyInt ((total : ℚ) * 0.15) + pyInt ((total : ℚ) * 0.20) +
            pyInt ((total : ℚ) * 0.25) + pyInt ((total : ℚ) * 0.15) + pyInt ((total : ℚ) * 0.05)) : ℤ) : ℚ) / 30,
        []⟩] := rfl

/-- Claim C5: for every positive frame count, the fallback segmentation
produces the six phases in the fixed order, their lengths sum to the total
frame count, and every frame in `[0, total)` lies in exactly one phase range
(inclusive `end_frame` convention: a phase covers
`start_frame ≤ f ≤ end_frame`). -/
theorem c5_fallback_partition (total : ℤ) (ht : 0 < total) :
    ((createFallbackPhases total).map (fun p => p.name) = servePhaseNames) ∧
    (((createFallbackPhases total).map (fun p => p.end_frame + 1 - p.start_frame)).sum = total) ∧
    (∀ f : ℤ, 0 ≤ f → f < total →
      (createFallbackPhases total).countP
        (fun p => decide (p.start_frame ≤ f ∧ f ≤ p.end_frame)) = 1) := by
  have ht' : (0 : ℚ) ≤ (total : ℚ) := by exact_mod_cast ht.le
  have n15 : (0 : ℚ) ≤ (total : ℚ) * 0.15 := mul_nonneg ht' (by norm_num)
  have n20 : (0 : ℚ) ≤ (total : ℚ) * 0.20 := mul_nonneg ht' (by norm_num)
  have n25 : (0 : ℚ) ≤ (total : ℚ) * 0.25 := mul_nonneg ht' (by norm_num)
  have n05 : (0 : ℚ) ≤ (total : ℚ) * 0.05 := mul_nonneg ht' (by norm_num)
  have g15 := pyInt_nonneg _ n15
  have g20 := pyInt_nonneg _ n20
  have g25 := pyInt_nonneg _ n25
  have g05 := pyInt_nonneg _ n05
  have l15 := pyInt_le _ n15
  have l20 := pyInt_le _ n20
  have l25 := pyInt_le _ n25
  have l05 := pyInt_le _ n05
  have hsum : pyInt ((total : ℚ) * 0.15) + pyInt ((total : ℚ) * 0.20) +
      pyInt ((total : ℚ) * 0.25) + pyInt ((total : ℚ) * 0.15) +
      pyInt ((total : ℚ) * 0.05) ≤ total := by
    have hq : ((pyInt ((total : ℚ) * 0.15) + pyInt ((total : ℚ) * 0.20) +
        pyInt ((total : ℚ) * 0.25) + pyInt ((total : ℚ) * 0.15) +
        pyInt ((total : ℚ) * 0.05) : ℤ) : ℚ) ≤ (total : ℚ) := by
      push_cast
      linarith
    exact_mod_cast hq
  rw [createFallbackPhases_eq]
  refine ⟨?_, ?_, ?_⟩
  · simp [servePhaseNames]
  · simp only [List.map_cons, List.map_nil, List.sum_cons, List.sum_nil]
    ring
  · intro f hf0 hft
    simp only [List.countP_cons, List.countP_nil, decide_eq_true_eq]
    split_ifs <;> omega

/-- Witness for C5: the 5-frame scenario input from the spec instantiates the
partition theorem. -/
theorem c5_witness :
    (0 : ℤ) < 5 ∧
    ((createFallbackPhases 5).map (fun p => p.name) = servePhaseNames) ∧
    (((createFallbackPhases 5).map (fun p => p.end_frame + 1 - p.start_frame)).sum = 5) ∧
    ((createFallbackPhases 5).countP
        (fun p => decide (p.start_frame ≤ (2 : ℤ) ∧ (2 : ℤ) ≤ p.end_frame)) = 1) := by
  have h := c5_fallback_partition 5 (by norm_num)
  exact ⟨by norm_num, h.1, h.2.1, h.2.2 2 (by norm_num) (by norm_num)⟩

/-- Arithmetic mean of a real list (`np.mean`; never applied to an empty list
by the source). -/
noncomputable def listMean (l : List ℝ) : ℝ := l.sum / l.length

/-- Population standard deviation of a real list (`np.std`). -/
noncomputable def listStd (l : List ℝ) : ℝ :=
  Real.sqrt (listMean (l.map (fun v => (v - listMean l) ^ 2)))

/-- Consecutive-step Euclidean velocities of a list of valid points
(the loop of `_calculate_trajectory_smoothness`). -/
noncomputable def velocityList : List Landmark → List ℝ
  | [] => []
  | [_] => []
  | p :: q :: rest =>
    Real.sqrt (((q.x : ℝ) - (p.x : ℝ)) * ((q.x : ℝ) - (p.x : ℝ)) +
      ((q.y : ℝ) - (p.y : ℝ)) * ((q.y : ℝ) - (p.y : ℝ))) :: velocityList (q :: rest)

open Classical in
/-- `MotionAnalyzer._calculate_trajectory_smoothness`. -/
noncomputable def trajectorySmoothness (trajectory : List (Option Landmark)) : ℝ :=
  if trajectory.length < 3 then 0
  else
    let validPoints := trajectory.reduceOption
    if validPoints.length < 3 then 0
    else
      let velocities := velocityList validPoints
      if velocities.length < 2 then 1
      else
        let velocityStd := listStd velocities
        let velocityMean := listMean velocities
        if velocityMean = 0 then 1
        else max (1 - min (velocityStd / velocityMean) 1) 0

/-- Squared length of the ray from `q` to `p`, in exact rational arithmetic;
used to state the `1e-6` magnitude guard of `_calculate_joint_angle`
(`sqrt s < 1e-6` iff `s < 1e-12`). -/
def raySq (p q : Landmark) : ℚ := (p.x - q.x) ^ 2 + (p.y - q.y) ^ 2

/-- `MotionAnalyzer._calculate_joint_angle`: angle at vertex `point2` between
the rays to `point1` and `point3`, in degrees; `none` when a point is missing
or a ray is shorter than `1e-6` (`np.clip` keeps the cosine in `[-1, 1]`). -/
noncomputable def calculateJointAngle (point1 point2 point3 : Option Landmark) : Option ℝ :=
  match point1, point2, point3 with
  | some a, some b, some c =>
    let v1x : ℝ := (a.x : ℝ) - (b.x : ℝ)
    let v1y : ℝ := (a.y : ℝ) - (b.y : ℝ)
    let v2x : ℝ := (c.x : ℝ) - (b.x : ℝ)
    let v2y : ℝ := (c.y : ℝ) - (b.y : ℝ)
    let norm1 := Real.sqrt (v1x ^ 2 + v1y ^ 2)
    let norm2 := Real.sqrt (v2x ^ 2 + v2y ^ 2)
    if norm1 < 1e-6 ∨ norm2 < 1e-6 then none
    else
      let cosAngle := min (max ((v1x * v2x + v1y * v2y) / (norm1 * norm2)) (-1)) 1
      some (Real.arccos cosAngle * 180 / Real.pi)
  | _, _, _ => none

/-- `math.atan2` (also `np.arctan2`) on real arguments. -/
noncomputable def pyAtan2 (y x : ℝ) : ℝ :=
  if 0 < x then Real.arctan (y / x)
  else if x < 0 ∧ 0 ≤ y then Real.arctan (y / x) + Real.pi
  else if x < 0 ∧ y < 0 then Real.arctan (y / x) - Real.pi
  else if x = 0 ∧ 0 < y then Real.pi / 2
  else if x = 0 ∧ y < 0 then -(Real.pi / 2)
  else 0

/-- `MotionAnalyzer._calculate_rotation_angle`: unsigned angle of the
left-to-right segment against the horizontal, in degrees. -/
noncomputable def calculateRotationAngle (leftPoint rightPoint : Landmark) : ℝ :=
  |pyAtan2 ((rightPoint.y : ℝ) - (leftPoint.y : ℝ))
      ((rightPoint.x : ℝ) - (leftPoint.x : ℝ)) * 180 / Real.pi|

lemma velocityList_length (l : List Landmark) : (velocityList l).length = l.length - 1 := by
  induction l with
  | nil => simp [velocityList]
  | cons p rest ih =>
    cases rest with
    | nil => simp [velocityList]
    | cons q rest' =>
      simp only [velocityList, List.length_cons]
      rw [ih]
      simp

lemma max_min_smoothness (x : ℝ) : max (1 - min x 1) 0 = max 0 (1 - x) := by
  rcases le_total x 1 with h | h
  · rw [min_eq_left h, max_comm]
  · rw [min_eq_right h]
    have h0 : 1 - x ≤ 0 := by linarith
    rw [max_eq_left h0]
    norm_num

/-- Claim C9: trajectory smoothness drops holes, returns 0 with fewer than 3
valid points, returns 1 when the mean consecutive velocity is 0, and
otherwise returns `max 0 (1 - std/mean)` of the consecutive-step Euclidean
velocities between valid points. -/
theorem c9_trajectory_smoothness :
    (∀ trajectory : List (Option Landmark), trajectory.reduceOption.length < 3 →
      trajectorySmoothness trajectory = 0) ∧
    (∀ trajectory : List (Option Landmark), 3 ≤ trajectory.reduceOption.length →
      listMean (velocityList trajectory.reduceOption) = 0 →
      trajectorySmoothness trajectory = 1) ∧
    (∀ trajectory : List (Option Landmark), 3 ≤ trajectory.reduceOption.length →
      listMean (velocityList trajectory.reduceOption) ≠ 0 →
      trajectorySmoothness trajectory = max 0
        (1 - listStd (velocityList trajectory.reduceOption) /
          listMean (velocityList trajectory.reduceOption))) := by
  refine ⟨?_, ?_, ?_⟩
  · intro traj hval
    unfold trajectorySmoothness
    by_cases hlen : traj.length < 3
    · rw [if_pos hlen]
    · rw [if_neg hlen, if_pos hval]
  · intro traj hval hmean
    have hlen : ¬ traj.length < 3 :=
      fun h => absurd (lt_of_le_of_lt (le_trans hval (List.reduceOption_length_le traj)) h)
        (lt_irrefl _)
    unfold trajectorySmoothness
    rw [if_neg hlen, if_neg (by omega), if_neg (by rw [velocityList_length]; omega),
      if_pos hmean]
  · intro traj hval hmean
    have hlen : ¬ traj.length < 3 :=
      fun h => absurd (lt_of_le_of_lt (le_trans hval (List.reduceOption_length_le traj)) h)
        (lt_irrefl _)
    unfold trajectorySmoothness
    rw [if_neg hlen, if_neg (by omega), if_neg (by rw [velocityList_length]; omega),
      if_neg hmean, max_min_smoothness]

/-- Concrete three-point trajectory used to instantiate the smoothness
theorem. -/
def c9traj : List (Option Landmark) := [some ⟨0, 0⟩, some ⟨1, 0⟩, some ⟨2, 0⟩]

lemma c9traj_reduce : c9traj.reduceOption = [⟨0, 0⟩, ⟨1, 0⟩, ⟨2, 0⟩] := rfl

lemma c9traj_velocities : velocityList c9traj.reduceOption = [1, 1] := by
  rw [c9traj_reduce]
  simp only [velocityList]
  norm_num

lemma c9traj_mean : listMean (velocityList c9traj.reduceOption) = 1 := by
  rw [c9traj_velocities]
  simp [listMean]

/-- Witness for C9: the smoothness theorem applied to the empty trajectory and
to a concrete three-point trajectory with nonzero mean velocity. -/
theorem c9_witness :
    (([] : List (Option Landmark)).reduceOption.length < 3 ∧
      trajectorySmoothness [] = 0) ∧
    (3 ≤ c9traj.reduceOption.length ∧
      listMean (velocityList c9traj.reduceOption) ≠ 0 ∧
      trajectorySmoothness c9traj = max 0
        (1 - listStd (velocityList c9traj.reduceOption) /
          listMean (velocityList c9traj.reduceOption))) := by
  refine ⟨⟨by simp, c9_trajectory_smoothness.1 [] (by simp)⟩,
    by rw [c9traj_reduce]; norm_num,
    by rw [c9traj_mean]; norm_num,
    c9_trajectory_smoothness.2.2 c9traj (by rw [c9traj_reduce]; norm_num)
      (by rw [c9traj_mean]; norm_num)⟩

lemma cos_of_scalar_mult (v2x v2y t : ℝ) (ht : t ≠ 0) (hS : 0 < v2x ^ 2 + v2y ^ 2) :
    (t * v2x * v2x + t * v2y * v2y) /
      (Real.sqrt ((t * v2x) ^ 2 + (t * v2y) ^ 2) * Real.sqrt (v2x ^ 2 + v2y ^ 2)) =
    t / |t| := by
  have hsq : (t * v2x) ^ 2 + (t * v2y) ^ 2 = t ^ 2 * (v2x ^ 2 + v2y ^ 2) := by ring
  rw [hsq, Real.sqrt_mul (sq_nonneg t), Real.sqrt_sq_eq_abs]
  have hss : Real.sqrt (v2x ^ 2 + v2y ^ 2) * Real.sqrt (v2x ^ 2 + v2y ^ 2) =
      v2x ^ 2 + v2y ^ 2 := Real.mul_self_sqrt hS.le
  have habs : |t| ≠ 0 := abs_ne_zero.mpr ht
  have hnum : t * v2x * v2x + t * v2y * v2y = t * (v2x ^ 2 + v2y ^ 2) := by ring
  rw [hnum]
  rw [mul_assoc |t| _ _ , hss]
  rw [div_eq_div_iff (by positivity) habs]
  ring

lemma raySq_cast (p q : Landmark) :
    ((raySq p q : ℚ) : ℝ) = ((p.x : ℝ) - (q.x : ℝ)) ^ 2 + ((p.y : ℝ) - (q.y : ℝ)) ^ 2 := by
  unfold raySq
  push_cast
  ring

lemma sqrt_not_lt_of_raySq (p q : Landmark) (h : (1e-12 : ℚ) ≤ raySq p q) :
    ¬ Real.sqrt (((p.x : ℝ) - (q.x : ℝ)) ^ 2 + ((p.y : ℝ) - (q.y : ℝ)) ^ 2) < 1e-6 := by
  rw [not_lt]
  have hcast : (1e-12 : ℝ) ≤ ((p.x : ℝ) - (q.x : ℝ)) ^ 2 + ((p.y : ℝ) - (q.y : ℝ)) ^ 2 := by
    rw [← raySq_cast]
    calc (1e-12 : ℝ) = ((1e-12 : ℚ) : ℝ) := by norm_num
    _ ≤ _ := by exact_mod_cast h
  rw [Real.le_sqrt (by norm_num) (by positivity)]
  nlinarith

lemma sqrt_lt_iff_raySq (p q : Landmark) :
    Real.sqrt (((p.x : ℝ) - (q.x : ℝ)) ^ 2 + ((p.y : ℝ) - (q.y : ℝ)) ^ 2) < 1e-6 ↔
      raySq p q < 1e-12 := by
  rw [Real.sqrt_lt' (by norm_num : (0 : ℝ) < 1e-6), ← raySq_cast,
    show ((1e-6 : ℝ) ^ 2) = ((1e-12 : ℚ) : ℝ) from by norm_num]
  exact_mod_cast Iff.rfl

/-- Claim C8: the joint angle is symmetric in its outer points, lies in
[0, 180] degrees, is exactly 180 for collinear opposite rays and exactly 0
for coincident rays, and is undefined exactly when a point is missing or a
ray magnitude is below 1e-6 (equivalently, its squared length is below
1e-12). -/
theorem c8_joint_angle_geometry :
    (∀ a b c : Option Landmark, calculateJointAngle a b c = calculateJointAngle c b a) ∧
    (∀ (a b c : Option Landmark) (θ : ℝ),
      calculateJointAngle a b c = some θ → 0 ≤ θ ∧ θ ≤ 180) ∧
    (∀ (a b c : Landmark) (t : ℚ), t < 0 →
      a.x - b.x = t * (c.x - b.x) → a.y - b.y = t * (c.y - b.y) →
      (1e-12 : ℚ) ≤ raySq a b → (1e-12 : ℚ) ≤ raySq c b →
      calculateJointAngle (some a) (some b) (some c) = some 180) ∧
    (∀ (a b c : Landmark) (t : ℚ), 0 < t →
      a.x - b.x = t * (c.x - b.x) → a.y - b.y = t * (c.y - b.y) →
      (1e-12 : ℚ) ≤ raySq a b → (1e-12 : ℚ) ≤ raySq c b →
      calculateJointAngle (some a) (some b) (some c) = some 0) ∧
    (∀ a b c : Option Landmark, calculateJointAngle a b c = none ↔
      a = none ∨ b = none ∨ c = none ∨
      (∃ pa pb pc, a = some pa ∧ b = some pb ∧ c = some pc ∧
        (raySq pa pb < 1e-12 ∨ raySq pc pb < 1e-12))) := by
  have hmain : ∀ (a b c : Landmark) (t : ℚ), (t : ℝ) ≠ 0 →
      a.x - b.x = t * (c.x - b.x) → a.y - b.y = t * (c.y - b.y) →
      (1e-12 : ℚ) ≤ raySq a b → (1e-12 : ℚ) ≤ raySq c b →
      calculateJointAngle (some a) (some b) (some c) =
        some (Real.arccos (min (max ((t : ℝ) / |(t : ℝ)|) (-1)) 1) * 180 / Real.pi) := by
    intro a b c t ht hx hy h1 h2
    have hv1x : (a.x : ℝ) - (b.x : ℝ) = (t : ℝ) * ((c.x : ℝ) - (b.x : ℝ)) := by
      exact_mod_cast congrArg (fun q : ℚ => (q : ℝ)) hx
    have hv1y : (a.y : ℝ) - (b.y : ℝ) = (t : ℝ) * ((c.y : ℝ) - (b.y : ℝ)) := by
      exact_mod_cast congrArg (fun q : ℚ => (q : ℝ)) hy
    have hS : (0 : ℝ) < ((c.x : ℝ) - (b.x : ℝ)) ^ 2 + ((c.y : ℝ) - (b.y : ℝ)) ^ 2 := by
      rw [← raySq_cast]
      calc (0 : ℝ) < ((1e-12 : ℚ) : ℝ) := by norm_num
      _ ≤ _ := by exact_mod_cast h2
    simp only [calculateJointAngle]
    rw [if_neg (not_or.mpr ⟨sqrt_not_lt_of_raySq a b h1, sqrt_not_lt_of_raySq c b h2⟩)]
    rw [hv1x, hv1y, cos_of_scalar_mult _ _ _ ht hS]
  refine ⟨?_, ?_, ?_, ?_, ?_⟩
  · intro a b c
    cases a with
    | none => cases c with
      | none => rfl
      | some pc => cases b <;> rfl
    | some pa => cases c with
      | none => cases b <;> rfl
      | some pc =>
        cases b with
        | none => rfl
        | some pb =>
          simp only [calculateJointAngle]
          split_ifs with h1 h2 h3
          · rfl
          · exact absurd (Or.symm h1) h2
          · exact absurd (Or.symm h3) h1
          · congr 1
            ring_nf
  · intro a b c θ h
    cases a with
    | none => simp [calculateJointAngle] at h
    | some pa => cases b with
      | none => simp [calculateJointAngle] at h
      | some pb => cases c with
        | none => simp [calculateJointAngle] at h
        | some pc =>
          simp only [calculateJointAngle] at h
          by_cases hcond : Real.sqrt (((pa.x : ℝ) - (pb.x : ℝ)) ^ 2 + ((pa.y : ℝ) - (pb.y : ℝ)) ^ 2) < 1e-6 ∨
              Real.sqrt (((pc.x : ℝ) - (pb.x : ℝ)) ^ 2 + ((pc.y : ℝ) - (pb.y : ℝ)) ^ 2) < 1e-6
          · rw [if_pos hcond] at h
            exact absurd h (by simp)
          · rw [if_neg hcond] at h
            have hθ := Option.some.inj h
            set C := min (max ((((pa.x : ℝ) - (pb.x : ℝ)) * ((pc.x : ℝ) - (pb.x : ℝ)) +
              ((pa.y : ℝ) - (pb.y : ℝ)) * ((pc.y : ℝ) - (pb.y : ℝ))) /
              (Real.sqrt (((pa.x : ℝ) - (pb.x : ℝ)) ^ 2 + ((pa.y : ℝ) - (pb.y : ℝ)) ^ 2) *
               Real.sqrt (((pc.x : ℝ) - (pb.x : ℝ)) ^ 2 + ((pc.y : ℝ) - (pb.y : ℝ)) ^ 2))) (-1)) 1 with hC
            rw [← hθ]
            constructor
            · exact div_nonneg (mul_nonneg (Real.arccos_nonneg _) (by norm_num)) Real.pi_pos.le
            · rw [div_le_iff₀ Real.pi_pos]
              nlinarith [Real.arccos_le_pi C, Real.pi_pos]
  · intro a b c t ht hx hy h1 h2
    have ht' : (t : ℝ) < 0 := by exact_mod_cast ht
    rw [hmain a b c t (ne_of_lt ht') hx hy h1 h2]
    rw [abs_of_neg ht', div_neg, div_self (ne_of_lt ht')]
    rw [show min (max (-(1 : ℝ)) (-1)) 1 = -1 from by norm_num, Real.arccos_neg_one]
    rw [mul_comm, mul_div_assoc, div_self Real.pi_ne_zero, mul_one]
  · intro a b c t ht hx hy h1 h2
    have ht' : (0 : ℝ) < (t : ℝ) := by exact_mod_cast ht
    rw [hmain a b c t (ne_of_gt ht') hx hy h1 h2]
    rw [abs_of_pos ht', div_self (ne_of_gt ht')]
    rw [show min (max (1 : ℝ) (-1)) 1 = 1 from by norm_num, Real.arccos_one]
    rw [zero_mul, zero_div]
  · intro a b c
    cases a with
    | none => simp [calculateJointAngle]
    | some pa => cases b with
      | none => simp [calculateJointAngle]
      | some pb => cases c with
        | none => simp [calculateJointAngle]
        | some pc =>
          simp only [calculateJointAngle]
          by_cases hcond : Real.sqrt (((pa.x : ℝ) - (pb.x : ℝ)) ^ 2 + ((pa.y : ℝ) - (pb.y : ℝ)) ^ 2) < 1e-6 ∨
              Real.sqrt (((pc.x : ℝ) - (pb.x : ℝ)) ^ 2 + ((pc.y : ℝ) - (pb.y : ℝ)) ^ 2) < 1e-6
          · rw [if_pos hcond]
            simp only [true_iff, eq_self_iff_true]
            have := (sqrt_lt_iff_raySq pa pb).mp
            have := (sqrt_lt_iff_raySq pc pb).mp
            refine Or.inr (Or.inr (Or.inr ⟨pa, pb, pc, rfl, rfl, rfl, ?_⟩))
            rcases hcond with h | h
            · exact Or.inl ((sqrt_lt_iff_raySq pa pb).mp h)
            · exact Or.inr ((sqrt_lt_iff_raySq pc pb).mp h)
          · rw [if_neg hcond]
            constructor
            · intro h
              exact absurd h (by simp)
            · intro h
              rcases h with h | h | h | ⟨qa, qb, qc, ha, hb, hc, hlt⟩
              · exact absurd h (by simp)
              · exact absurd h (by simp)
              · exact absurd h (by simp)
              · exfalso
                apply hcond
                obtain rfl : pa = qa := Option.some.inj ha
                obtain rfl : pb = qb := Option.some.inj hb
                obtain rfl : pc = qc := Option.some.inj hc
                rcases hlt with h | h
                · exact Or.inl ((sqrt_lt_iff_raySq pa pb).mpr h)
                · exact Or.inr ((sqrt_lt_iff_raySq pc pb).mpr h)

/-- Witness for C8: concrete collinear opposite rays (a = (-2,0), b = origin,
c = (1,0), scalar t = -2) give exactly 180 degrees. -/
theorem c8_witness :
    ((-2 : ℚ) < 0) ∧ ((1e-12 : ℚ) ≤ raySq ⟨-2, 0⟩ ⟨0, 0⟩) ∧
      ((1e-12 : ℚ) ≤ raySq ⟨1, 0⟩ ⟨0, 0⟩) ∧
      calculateJointAngle (some ⟨-2, 0⟩) (some ⟨0, 0⟩) (some ⟨1, 0⟩) = some 180 :=
  ⟨by norm_num, by norm_num [raySq], by norm_num [raySq],
    c8_joint_angle_geometry.2.2.1 ⟨-2, 0⟩ ⟨0, 0⟩ ⟨1, 0⟩ (-2) (by norm_num)
      (by norm_num) (by norm_num) (by norm_num [raySq]) (by norm_num [raySq])⟩

open Classical

/-- Python `min()` of a nonempty rational list (`0` on `[]`, never passed). -/
def listMinQ : List ℚ → ℚ
  | [] => 0
  | x :: xs => xs.foldl min x

/-- Python `min()` of a nonempty real list (`0` on `[]`, never passed). -/
noncomputable def listMinR : List ℝ → ℝ
  | [] => 0
  | x :: xs => xs.foldl min x

/-- Python `max()` of a nonempty real list (`0` on `[]`, never passed). -/
noncomputable def listMaxR : List ℝ → ℝ
  | [] => 0
  | x :: xs => xs.foldl max x

/-- `np.mean` of a rational list. -/
def listMeanQ (l : List ℚ) : ℚ := l.sum / l.length

/-- Python `range(a, b + 1)` over integers. -/
def rangeClosed (a b : ℤ) : List ℤ :=
  (List.range (b + 1 - a).toNat).map (fun i => a + (i : ℤ))

/-- Guarded trajectory access `trajectory[i]` under the source's
`frame_idx < len(trajectory)` test.  The source never reaches a negative
index here (all phase start frames are nonnegative), so Python's negative
wraparound is not modelled. -/
def trajGet (traj : List (Option Landmark)) (i : ℤ) : Option Landmark :=
  if 0 ≤ i ∧ i < traj.length then (traj.getD i.toNat none) else none

/-- Python slice `pose_results[a : b + 1]` for a nonnegative start, clamped at
both ends as Python slices are. -/
def sliceClamped (l : List Frame) (a b : ℤ) : List Frame :=
  (l.drop a.toNat).take (b + 1 - a).toNat

/-- Substring test on character lists (Python `needle in hay`). -/
def charsHasInfix (needle : List Char) : List Char → Bool
  | [] => needle.isEmpty
  | c :: rest => needle.isPrefixOf (c :: rest) || charsHasInfix needle rest

/-- Result of `analyze_knee_movement`. -/
structure KneeResult where
  max_bend_angle : ℝ
  max_bend_frame : ℕ
  timing_score : ℚ
  depth_score : ℝ
  overall_score : ℝ
  issues : List String
  recommendations : List String

/-- Result of `analyze_elbow_position`. -/
structure ElbowResult where
  average_height : ℚ
  shoulder_relative_position : ℚ
  height_score : ℚ
  stability_score : ℝ
  overall_score : ℝ
  issues : List String
  recommendations : List String

/-- Result of `analyze_toss_trajectory`; `height_score`/`distance_score` are
absent (`none`) in the two insufficient-data early returns. -/
structure TossResult where
  max_height : ℚ
  forward_distance : ℚ
  consistency_score : ℝ
  height_score : Option ℚ
  distance_score : Option ℚ
  overall_score : ℝ
  issues : List String
  recommendations : List String

/-- Result of `analyze_body_rotation`. -/
structure RotationResult where
  max_shoulder_rotation : ℝ
  max_hip_rotation : ℝ
  shoulder_score : ℝ
  hip_score : ℝ
  overall_score : ℝ
  issues : List String
  recommendations : List String

/-- Result of `analyze_timing`. -/
structure TimingResult where
  total_duration : ℚ
  phase_scores : List (String × ℚ)
  overall_score : ℚ
  issues : List String
  recommendations : List String

/-- Result of `_analyze_swing_completion`; optional fields are the
dictionary keys present only on some paths. -/
structure SwingCompletion where
  score : ℚ
  completion_rate : ℚ
  horizontal_movement : Option ℚ
  vertical_movement : Option ℚ
  issue : Option String

/-- Result of `_analyze_body_rotation_completion`. -/
structure RotationCompletion where
  score : ℝ
  rotation_completion : Option ℚ
  final_rotation : Option ℝ
  max_rotation : Option ℝ
  rotation_consistency : Option ℝ
  issue : Option String

/-- Result of `_analyze_balance_maintenance`. -/
structure BalanceMaintenance where
  score : ℝ
  stability : Option ℚ
  left_stability : Option ℝ
  right_stability : Option ℝ
  overall_stability : Option ℝ
  issue : Option String

/-- Result of `_analyze_racket_path`. -/
structure RacketPath where
  score : ℝ
  path_quality : ℝ
  path_smoothness : Option ℝ
  issue : Option String

/-- Result of `FollowThroughAnalyzer.analyze_follow_through`. -/
structure FollowThroughResult where
  swing_completion : SwingCompletion
  body_rotation_completion : RotationCompletion
  balance_maintenance : BalanceMaintenance
  racket_path : RacketPath
  overall_score : ℝ
  issues : List String
  recommendations : List String

/-- The per-frame right hip-knee-ankle joint angle list built by the loop of
`analyze_knee_movement` (a `None` entry for frames without a pose or with a
degenerate or incomplete configuration). -/
noncomputable def kneeAngles (poseResults : List Frame) : List (Option ℝ) :=
  poseResults.map (fun r =>
    if r.has_pose then
      calculateJointAngle r.landmarks.right_hip r.landmarks.right_knee r.landmarks.right_ankle
    else none)

/-- `MotionAnalyzer._get_knee_recommendations`. -/
noncomputable def getKneeRecommendations (maxBendAngle : ℝ)
    (timingIssues : List String) (_depthIssues : List String) : List String :=
  (if maxBendAngle > 160 then ["膝をもっと深く曲げて、より多くのパワーを生成しましょう"]
   else if maxBendAngle < 120 then ["膝の曲げを少し浅くして、バランスを保ちましょう"]
   else []) ++
  (if timingIssues.contains ("膝の曲げが早すぎます") then
     ["トスと同時に膝を曲げ始めるタイミングを練習しましょう"]
   else if timingIssues.contains ("膝の曲げが遅すぎます") then
     ["もう少し早めに膝を曲げ始めましょう"]
   else [])

/-- `MotionAnalyzer.analyze_knee_movement`. -/
noncomputable def analyzeKneeMovement (poseResults : List Frame)
    (servePhases : List ServePhase) : KneeResult :=
  let angles := kneeAngles poseResults
  let validAngles := angles.reduceOption
  let maxBendAngle : ℝ := if validAngles ≠ [] then listMinR validAngles else 180
  let maxBendFrame : ℕ :=
    if validAngles ≠ [] then angles.findIdx (fun a => decide (a = some (listMinR validAngles)))
    else 0
  let trophyPhase := servePhases.find? (fun p => p.name = "trophy_position")
  let timingScore : ℚ :=
    match trophyPhase with
    | some ph =>
      if (maxBendFrame : ℤ) < ph.start_frame then 10 - 2
      else if (maxBendFrame : ℤ) > ph.end_frame then 10 - 2
      else 10
    | none => 10
  let timingIssues : List String :=
    match trophyPhase with
    | some ph =>
      if (maxBendFrame : ℤ) < ph.start_frame then ["膝の曲げが早すぎます"]
      else if (maxBendFrame : ℤ) > ph.end_frame then ["膝の曲げが遅すぎます"]
      else []
    | none => []
  let depthScore : ℝ :=
    if maxBendAngle > 170 then 10 - 6.0
    else if maxBendAngle > 160 then 10 - 4.5
    else if maxBendAngle > 150 then 10 - 2.5
    else if maxBendAngle > 145 then 10 - 1.0
    else if maxBendAngle < 115 then 10 - 6.0
    else if maxBendAngle < 125 then 10 - 3.5
    else if maxBendAngle < 135 then 10 - 1.5
    else 10
  let depthIssues : List String :=
    if maxBendAngle > 170 then ["膝の曲げが大幅に浅すぎます"]
    else if maxBendAngle > 160 then ["膝の曲げが浅すぎます"]
    else if maxBendAngle > 150 then ["膝の曲げがやや浅いです"]
    else if maxBendAngle > 145 then ["膝の曲げが少し浅いです"]
    else if maxBendAngle < 115 then ["膝の曲げが大幅に深すぎます"]
    else if maxBendAngle < 125 then ["膝の曲げが深すぎます"]
    else if maxBendAngle < 135 then ["膝の曲げがやや深いです"]
    else []
  { max_bend_angle := maxBendAngle
    max_bend_frame := maxBendFrame
    timing_score := timingScore
    depth_score := depthScore
    overall_score := ((timingScore : ℝ) + depthScore) / 2
    issues := timingIssues ++ depthIssues
    recommendations := getKneeRecommendations maxBendAngle timingIssues depthIssues }

/-- `MotionAnalyzer._get_elbow_recommendations`. -/
def getElbowRecommendations (elbowShoulderDiff : ℚ) (issues : List String) : List String :=
  (if elbowShoulderDiff < -0.05 then ["肘をもう少し高い位置に保ちましょう"]
   else if elbowShoulderDiff > 0.1 then ["肘の位置を少し下げて、自然な動作を心がけましょう"]
   else []) ++
  (if issues.contains ("肘の動きが不安定です") then
     ["肘の軌道を安定させるため、ゆっくりとした練習から始めましょう"]
   else [])

/-- The paired elbow/shoulder heights collected over the trophy-position
frame range by `analyze_elbow_position`. -/
def elbowShoulderPairs (elbowTraj shoulderTraj : List (Option Landmark))
    (a b : ℤ) : List (ℚ × ℚ) :=
  (rangeClosed a b).filterMap (fun i =>
    match trajGet elbowTraj i, trajGet shoulderTraj i with
    | some e, some s => some (e.y, s.y)
    | _, _ => none)

/-- `MotionAnalyzer.analyze_elbow_position`. -/
noncomputable def analyzeElbowPosition (poseResults : List Frame)
    (servePhases : List ServePhase) : ElbowResult :=
  let elbowTraj := extractLandmarkTrajectory poseResults (fun l => l.right_elbow)
  let shoulderTraj := extractLandmarkTrajectory poseResults (fun l => l.right_shoulder)
  let trophyPhase := servePhases.find? (fun p => p.name = "trophy_position")
  let stats : ℚ × ℚ × ℚ :=
    match trophyPhase with
    | some ph =>
      if elbowTraj ≠ [] ∧ shoulderTraj ≠ [] then
        let pairs := elbowShoulderPairs elbowTraj shoulderTraj ph.start_frame ph.end_frame
        if pairs ≠ [] then
          let avgElbow := listMeanQ (pairs.map (fun pr => pr.1))
          let avgShoulder := listMeanQ (pairs.map (fun pr => pr.2))
          (avgElbow, avgShoulder, avgShoulder - avgElbow)
        else (0.5, 0.5, 0)
      else (0.5, 0.5, 0)
    | none => (0.5, 0.5, 0)
  let avgElbowHeight := stats.1
  let elbowShoulderDiff := stats.2.2
  let heightScore : ℚ :=
    if elbowShoulderDiff < -0.06 then 10 - 6.0
    else if elbowShoulderDiff < -0.03 then 10 - 4.0
    else if elbowShoulderDiff < 0.0 then 10 - 1.5
    else if elbowShoulderDiff > 0.1 then 10 - 6.0
    else if elbowShoulderDiff > 0.06 then 10 - 4.0
    else if elbowShoulderDiff > 0.03 then 10 - 2.0
    else 10
  let heightIssues : List String :=
    if elbowShoulderDiff < -0.06 then ["肘の位置が大幅に低すぎます"]
    else if elbowShoulderDiff < -0.03 then ["肘の位置が低すぎます"]
    else if elbowShoulderDiff < 0.0 then ["肘の位置がやや低いです"]
    else if elbowShoulderDiff > 0.1 then ["肘の位置が大幅に高すぎます"]
    else if elbowShoulderDiff > 0.06 then ["肘の位置が高すぎます"]
    else if elbowShoulderDiff > 0.03 then ["肘の位置がやや高いです"]
    else []
  let stabilityScore : ℝ :=
    if elbowTraj ≠ [] then
      let s := trajectorySmoothness elbowTraj
      if s < 0.6 then 10 - 4.0
      else if s < 0.7 then 10 - 2.5
      else if s < 0.8 then 10 - 1.0
      else 10
    else 10
  let stabilityIssues : List String :=
    if elbowTraj ≠ [] then
      let s := trajectorySmoothness elbowTraj
      if s < 0.6 then ["肘の動きが大幅に不安定です"]
      else if s < 0.7 then ["肘の動きが不安定です"]
      else if s < 0.8 then ["肘の動きがやや不安定です"]
      else []
    else []
  { average_height := avgElbowHeight
    shoulder_relative_position := elbowShoulderDiff
    height_score := heightScore
    stability_score := stabilityScore
    overall_score := ((heightScore : ℝ) + stabilityScore) / 2
    issues := heightIssues ++ stabilityIssues
    recommendations := getElbowRecommendations elbowShoulderDiff (heightIssues ++ stabilityIssues) }

/-- The three instability issue strings of the toss-consistency evaluation
(appended at smoothness thresholds 0.5 / 0.6 / 0.7). -/
noncomputable def tossConsistencyIssues (consistencyScore : ℝ) : List String :=
  if consistencyScore < 0.5 then ["トスの軌道が大幅に不安定です"]
  else if consistencyScore < 0.6 then ["トスの軌道が不安定です"]
  else if consistencyScore < 0.7 then ["トスの軌道がやや不安定です"]
  else []

/-- The `consistency_penalty` variable of `analyze_toss_trajectory`
(computed by the source and never used afterwards). -/
noncomputable def tossConsistencyPenalty (consistencyScore : ℝ) : ℝ :=
  if consistencyScore < 0.5 then 4.0
  else if consistencyScore < 0.6 then 2.5
  else if consistencyScore < 0.7 then 1.0
  else 0

/-- `MotionAnalyzer._get_toss_recommendations`. -/
def getTossRecommendations (maxHeight forwardDistance : ℚ)
    (_issues : List String) : List String :=
  (if maxHeight < 0.3 then ["トスをもう少し高く上げて、十分な時間を確保しましょう"]
   else if maxHeight > 0.7 then ["トスの高さを少し抑えて、コントロールを向上させましょう"]
   else []) ++
  (if forwardDistance < 0.05 then ["トスをもう少し前方に投げて、効果的な打点を作りましょう"]
   else if forwardDistance > 0.2 then ["トスの前方距離を抑えて、バランスを保ちましょう"]
   else [])

/-- The main branch of `analyze_toss_trajectory`, on the collected valid toss
trajectory (factored out of the function body; only reached on a nonempty
trajectory). -/
noncomputable def tossMainResult (tossTrajectory : List Landmark) : TossResult :=
  let heights := tossTrajectory.map (fun p => p.y)
  let maxHeight := listMinQ heights
  let maxHeightNormalized : ℚ := 1 - maxHeight
  let startX := (tossTrajectory.headD ⟨0, 0⟩).x
  let endX := (tossTrajectory.getLastD ⟨0, 0⟩).x
  let forwardDistance : ℚ := |endX - startX|
  let consistencyScore : ℝ := trajectorySmoothness (tossTrajectory.map some)
  let heightScore : ℚ :=
    if maxHeightNormalized < 0.2 then 10 - 4.0
    else if maxHeightNormalized < 0.3 then 10 - 3.0
    else if maxHeightNormalized < 0.4 then 10 - 1.5
    else if maxHeightNormalized > 0.8 then 10 - 4.0
    else if maxHeightNormalized > 0.7 then 10 - 2.5
    else if maxHeightNormalized > 0.6 then 10 - 1.0
    else 10
  let heightIssues : List String :=
    if maxHeightNormalized < 0.2 then ["トスが大幅に低すぎます"]
    else if maxHeightNormalized < 0.3 then ["トスが低すぎます"]
    else if maxHeightNormalized < 0.4 then ["トスがやや低いです"]
    else if maxHeightNormalized > 0.8 then ["トスが大幅に高すぎます"]
    else if maxHeightNormalized > 0.7 then ["トスが高すぎます"]
    else if maxHeightNormalized > 0.6 then ["トスがやや高いです"]
    else []
  let distanceScore : ℚ :=
    if forwardDistance < 0.03 then 10 - 4.0
    else if forwardDistance < 0.05 then 10 - 2.5
    else if forwardDistance < 0.08 then 10 - 1.0
    else if forwardDistance > 0.25 then 10 - 4.0
    else if forwardDistance > 0.2 then 10 - 2.5
    else if forwardDistance > 0.15 then 10 - 1.0
    else 10
  let distanceIssues : List String :=
    if forwardDistance < 0.03 then ["トスの前方への投げが大幅に不足しています"]
    else if forwardDistance < 0.05 then ["トスの前方への投げが不足しています"]
    else if forwardDistance < 0.08 then ["トスの前方への投げがやや不足しています"]
    else if forwardDistance > 0.25 then ["トスが大幅に前方に行きすぎています"]
    else if forwardDistance > 0.2 then ["トスが前方に行きすぎています"]
    else if forwardDistance > 0.15 then ["トスがやや前方に行きすぎています"]
    else []
  { max_height := maxHeightNormalized
    forward_distance := forwardDistance
    consistency_score := consistencyScore
    height_score := some heightScore
    distance_score := some distanceScore
    overall_score := ((heightScore : ℝ) + (distanceScore : ℝ) + consistencyScore * 10) / 3
    issues := heightIssues ++ distanceIssues ++ tossConsistencyIssues consistencyScore
    recommendations := getTossRecommendations maxHeightNormalized forwardDistance
      (heightIssues ++ distanceIssues ++ tossConsistencyIssues consistencyScore) }

/-- `MotionAnalyzer.analyze_toss_trajectory`. -/
noncomputable def analyzeTossTrajectory (poseResults : List Frame)
    (servePhases : List ServePhase) : TossResult :=
  let leftTraj := extractLandmarkTrajectory poseResults (fun l => l.left_wrist)
  if leftTraj = [] then
    { max_height := 0, forward_distance := 0, consistency_score := 0,
      height_score := none, distance_score := none, overall_score := 0,
      issues := ["トス軌道を検出できませんでした"],
      recommendations := ["動画の品質を確認してください"] }
  else
    let tossPhase := servePhases.find? (fun p => p.name = "ball_toss")
    let tossTrajectory : List Landmark :=
      match tossPhase with
      | some ph => (rangeClosed ph.start_frame ph.end_frame).filterMap (trajGet leftTraj)
      | none => leftTraj.reduceOption
    if tossTrajectory = [] then
      { max_height := 0, forward_distance := 0, consistency_score := 0,
        height_score := none, distance_score := none, overall_score := 0,
        issues := ["トス軌道データが不足しています"],
        recommendations := ["より明確にトス動作を撮影してください"] }
    else tossMainResult tossTrajectory

/-- The per-frame shoulder-line rotation angles of `analyze_body_rotation`. -/
noncomputable def shoulderRotations (poseResults : List Frame) : List (Option ℝ) :=
  poseResults.map (fun r =>
    if r.has_pose then
      match r.landmarks.left_shoulder, r.landmarks.right_shoulder with
      | some l, some rr => some (calculateRotationAngle l rr)
      | _, _ => none
    else none)

/-- The per-frame hip-line rotation angles of `analyze_body_rotation`. -/
noncomputable def hipRotations (poseResults : List Frame) : List (Option ℝ) :=
  poseResults.map (fun r =>
    if r.has_pose then
      match r.landmarks.left_hip, r.landmarks.right_hip with
      | some l, some rr => some (calculateRotationAngle l rr)
      | _, _ => none
    else none)

/-- `MotionAnalyzer._get_rotation_recommendations`. -/
noncomputable def getRotationRecommendations (shoulderRotation hipRotation : ℝ)
    (_issues : List String) : List String :=
  (if shoulderRotation < 60 then ["肩の回転をもっと大きくして、パワーを増加させましょう"]
   else if shoulderRotation > 120 then ["肩の回転を少し抑えて、コントロールを向上させましょう"]
   else []) ++
  (if hipRotation < 30 then ["腰の回転を意識して、下半身からのパワー伝達を改善しましょう"]
   else [])

/-- `MotionAnalyzer.analyze_body_rotation`. -/
noncomputable def analyzeBodyRotation (poseResults : List Frame)
    (_servePhases : List ServePhase) : RotationResult :=
  let validShoulder := (shoulderRotations poseResults).reduceOption
  let validHip := (hipRotations poseResults).reduceOption
  let maxShoulderRotation : ℝ := if validShoulder ≠ [] then listMaxR validShoulder else 0
  let maxHipRotation : ℝ := if validHip ≠ [] then listMaxR validHip else 0
  let shoulderScore : ℝ :=
    if maxShoulderRotation < 75 then 10 - 6.0
    else if maxShoulderRotation < 83 then 10 - 4.0
    else if maxShoulderRotation < 88 then 10 - 2.0
    else if maxShoulderRotation > 98 then 10 - 5.0
    else if maxShoulderRotation > 92 then 10 - 2.5
    else 10
  let shoulderIssues : List String :=
    if maxShoulderRotation < 75 then ["肩の回転が大幅に不足しています"]
    else if maxShoulderRotation < 83 then ["肩の回転が不足しています"]
    else if maxShoulderRotation < 88 then ["肩の回転がやや不足しています"]
    else if maxShoulderRotation > 98 then ["肩の回転が過度です"]
    else if maxShoulderRotation > 92 then ["肩の回転がやや過度です"]
    else []
  let hipScore : ℝ :=
    if maxHipRotation < 30 then 10 - 6.0
    else if maxHipRotation < 40 then 10 - 4.0
    else if maxHipRotation < 45 then 10 - 2.0
    else if maxHipRotation > 65 then 10 - 5.0
    else if maxHipRotation > 55 then 10 - 2.5
    else 10
  let hipIssues : List String :=
    if maxHipRotation < 30 then ["腰の回転が大幅に不足しています"]
    else if maxHipRotation < 40 then ["腰の回転が不足しています"]
    else if maxHipRotation < 45 then ["腰の回転がやや不足しています"]
    else if maxHipRotation > 65 then ["腰の回転が過度です"]
    else if maxHipRotation > 55 then ["腰の回転がやや過度です"]
    else []
  { max_shoulder_rotation := maxShoulderRotation
    max_hip_rotation := maxHipRotation
    shoulder_score := shoulderScore
    hip_score := hipScore
    overall_score := (shoulderScore + hipScore) / 2
    issues := shoulderIssues ++ hipIssues
    recommendations := getRotationRecommendations maxShoulderRotation maxHipRotation
      (shoulderIssues ++ hipIssues) }

/-- The ideal per-phase duration ratios of `analyze_timing`. -/
def idealPhaseRatios : List (String × ℚ) :=
  [("preparation", 0.15), ("ball_toss", 0.20), ("trophy_position", 0.25),
   ("acceleration", 0.15), ("contact", 0.05), ("follow_through", 0.20)]

/-- The banded per-phase timing score of `analyze_timing`. -/
def timingPhaseScore (ratioDiff : ℚ) : ℚ :=
  if ratioDiff < 0.03 then 10.0
  else if ratioDiff < 0.06 then 8.5
  else if ratioDiff < 0.1 then 7.0
  else if ratioDiff < 0.15 then 5.5
  else if ratioDiff < 0.2 then 4.0
  else 2.0

/-- `MotionAnalyzer._get_timing_recommendations`. -/
def getTimingRecommendations (timingIssues : List String) : List String :=
  if timingIssues ≠ [] then
    ["各フェーズのタイミングを意識して、リズムの良いサーブを心がけましょう",
     "メトロノームを使った練習で、一定のリズムを身につけましょう"]
  else []

/-- `MotionAnalyzer.analyze_timing`. -/
def analyzeTiming (poseResults : List Frame) (servePhases : List ServePhase) : TimingResult :=
  let totalDuration : ℚ := (poseResults.length : ℚ) / 30
  let phaseData := servePhases.map (fun phase =>
    let phaseRatio : ℚ := if totalDuration > 0 then phase.duration / totalDuration else 0
    let idealRatio := ((idealPhaseRatios.lookup phase.name).getD 0.15)
    (phase.name, phaseRatio, |phaseRatio - idealRatio|))
  let timingScores : List (String × ℚ) :=
    phaseData.map (fun d => (d.1, timingPhaseScore d.2.2))
  let timingIssues : List String :=
    phaseData.filterMap (fun d =>
      if 0.2 ≤ d.2.2 then
        let idealRatio := ((idealPhaseRatios.lookup d.1).getD 0.15)
        if d.2.1 > idealRatio then some (d.1 ++ "フェーズが長すぎます")
        else some (d.1 ++ "フェーズが短すぎます")
      else none)
  { total_duration := totalDuration
    phase_scores := timingScores
    overall_score := if timingScores ≠ [] then listMeanQ (timingScores.map (fun s => s.2)) else 0
    issues := timingIssues
    recommendations := getTimingRecommendations timingIssues }

/-- The valid right-wrist samples of a frame window (loops of
`_analyze_swing_completion` / `_analyze_racket_path`). -/
def collectRightWrist (frames : List Frame) : List Landmark :=
  frames.filterMap (fun f => if f.has_pose then f.landmarks.right_wrist else none)

/-- `FollowThroughAnalyzer._analyze_swing_completion`. -/
def analyzeSwingCompletion (frames : List Frame) : SwingCompletion :=
  let pts := collectRightWrist frames
  if pts.length < 3 then
    { score := 5.0, completion_rate := 0.5, horizontal_movement := none,
      vertical_movement := none, issue := some ("振り抜きデータ不足") }
  else
    let startPos := pts.headD ⟨0, 0⟩
    let endPos := pts.getLastD ⟨0, 0⟩
    let horizontalMovement := endPos.x - startPos.x
    let verticalMovement := startPos.y - endPos.y
    let completionScore : ℚ := 10
      - (if horizontalMovement < 0.1 then 3.0
         else if horizontalMovement < 0.15 then 1.5 else 0)
      - (if verticalMovement < 0.05 then 2.0
         else if verticalMovement < 0.1 then 1.0 else 0)
    { score := max 0 completionScore
      completion_rate := min 1 ((horizontalMovement + verticalMovement) / 0.3)
      horizontal_movement := some horizontalMovement
      vertical_movement := some verticalMovement
      issue := none }

/-- The absolute consecutive angle changes of
`_calculate_rotation_consistency`. -/
noncomputable def angleDiffs : List ℝ → List ℝ
  | [] => []
  | [_] => []
  | a :: b :: rest => |b - a| :: angleDiffs (b :: rest)

/-- `FollowThroughAnalyzer._calculate_rotation_consistency`. -/
noncomputable def rotationConsistency (angles : List ℝ) : ℝ :=
  if angles.length < 2 then 0.5
  else max 0 (1 - listStd (angleDiffs angles) / 30)

/-- The valid shoulder-line angles of a frame window
(`_analyze_body_rotation_completion`). -/
noncomputable def ftShoulderAngles (frames : List Frame) : List ℝ :=
  frames.filterMap (fun f =>
    if f.has_pose then
      match f.landmarks.left_shoulder, f.landmarks.right_shoulder with
      | some l, some r => some (calculateRotationAngle l r)
      | _, _ => none
    else none)

/-- `FollowThroughAnalyzer._analyze_body_rotation_completion`. -/
noncomputable def analyzeBodyRotationCompletion (frames : List Frame) : RotationCompletion :=
  let angles := ftShoulderAngles frames
  if angles = [] then
    { score := 5.0, rotation_completion := some 0.5, final_rotation := none,
      max_rotation := none, rotation_consistency := none, issue := some ("回転データ不足") }
  else
    let finalRotation := angles.getLastD 0
    let maxRotation := listMaxR angles
    let consistency := rotationConsistency angles
    let completionScore : ℝ := 10
      - (if finalRotation < 100 then 3.0
         else if finalRotation < 110 then 1.5 else 0)
      - (if consistency < 0.7 then 2.0 else 0)
    { score := max 0 completionScore
      rotation_completion := none
      final_rotation := some finalRotation
      max_rotation := some maxRotation
      rotation_consistency := some consistency
      issue := none }

/-- `FollowThroughAnalyzer._calculate_position_stability`. -/
noncomputable def positionStability (positions : List Landmark) : ℝ :=
  if positions.length < 2 then 0.5
  else
    let xStd := listStd (positions.map (fun p => (p.x : ℝ)))
    let yStd := listStd (positions.map (fun p => (p.y : ℝ)))
    max 0 (1 - (xStd + yStd) / 0.2)

/-- `FollowThroughAnalyzer._analyze_balance_maintenance`. -/
noncomputable def analyzeBalanceMaintenance (frames : List Frame) : BalanceMaintenance :=
  let leftAnkle := frames.filterMap (fun f =>
    if f.has_pose then f.landmarks.left_ankle else none)
  let rightAnkle := frames.filterMap (fun f =>
    if f.has_pose then f.landmarks.right_ankle else none)
  if leftAnkle.length < 3 ∨ rightAnkle.length < 3 then
    { score := 5.0, stability := some 0.5, left_stability := none,
      right_stability := none, overall_stability := none, issue := some ("バランスデータ不足") }
  else
    let leftStability := positionStability leftAnkle
    let rightStability := positionStability rightAnkle
    let avgStability := (leftStability + rightStability) / 2
    let balanceScore : ℝ :=
      if avgStability < 0.6 then 10 - 4.0
      else if avgStability < 0.75 then 10 - 2.0
      else if avgStability < 0.85 then 10 - 1.0
      else 10
    { score := max 0 balanceScore
      stability := none
      left_stability := some leftStability
      right_stability := some rightStability
      overall_stability := some avgStability
      issue := none }

/-- The per-triple direction-change angles of the follow-through module's own
`_calculate_trajectory_smoothness` (curvature based, unlike the motion
analyzer's velocity-variation version). -/
noncomputable def ftCurvatures : List Landmark → List ℝ
  | p :: q :: r :: rest =>
    let v1x : ℝ := (q.x : ℝ) - (p.x : ℝ)
    let v1y : ℝ := (q.y : ℝ) - (p.y : ℝ)
    let v2x : ℝ := (r.x : ℝ) - (q.x : ℝ)
    let v2y : ℝ := (r.y : ℝ) - (q.y : ℝ)
    let norm1 := Real.sqrt (v1x ^ 2 + v1y ^ 2)
    let norm2 := Real.sqrt (v2x ^ 2 + v2y ^ 2)
    (if norm1 > 0 ∧ norm2 > 0 then
      [Real.arccos (min (max ((v1x * v2x + v1y * v2y) / (norm1 * norm2)) (-1)) 1)]
     else []) ++ ftCurvatures (q :: r :: rest)
  | _ => []

/-- `FollowThroughAnalyzer._calculate_trajectory_smoothness`. -/
noncomputable def ftTrajectorySmoothness (positions : List Landmark) : ℝ :=
  if positions.length < 3 then 0.5
  else
    let curvatureChanges := ftCurvatures positions
    if curvatureChanges = [] then 0.5
    else max 0 (1 - listMean curvatureChanges / Real.pi)

/-- `FollowThroughAnalyzer._analyze_racket_path`. -/
noncomputable def analyzeRacketPath (frames : List Frame) : RacketPath :=
  let pts := collectRightWrist frames
  if pts.length < 3 then
    { score := 5.0, path_quality := 0.5, path_smoothness := none,
      issue := some ("軌道データ不足") }
  else
    let pathSmoothness := ftTrajectorySmoothness pts
    let pathScore : ℝ :=
      if pathSmoothness < 0.6 then 10 - 3.0
      else if pathSmoothness < 0.75 then 10 - 1.5
      else 10
    { score := max 0 pathScore
      path_quality := pathSmoothness
      path_smoothness := some pathSmoothness
      issue := none }

/-- `FollowThroughAnalyzer._collect_issues`. -/
noncomputable def ftCollectIssues (swing : SwingCompletion) (rotation : RotationCompletion)
    (balance : BalanceMaintenance) (racket : RacketPath) : List String :=
  (if (swing.score : ℝ) < 7.0 then ["ラケットの振り抜きが不完全です"] else []) ++
  (if rotation.score < 7.0 then ["体の回転が不完全です"] else []) ++
  (if balance.score < 7.0 then ["バランスの維持に問題があります"] else []) ++
  (if racket.score < 7.0 then ["ラケットの軌道が不安定です"] else [])

/-- `FollowThroughAnalyzer._get_follow_through_recommendations`. -/
noncomputable def ftRecommendations (overallScore : ℝ) : List String :=
  if overallScore < 6.0 then
    ["フォロースルーの基本動作を見直しましょう",
     "ラケットを体の左側まで完全に振り抜く練習をしましょう",
     "体の回転を最後まで完了させる意識を持ちましょう"]
  else if overallScore < 8.0 then
    ["フォロースルーの完成度を高めましょう",
     "バランスを保ちながらの振り抜きを練習しましょう"]
  else ["フォロースルーは良好です。この調子を維持しましょう"]

/-- `FollowThroughAnalyzer._create_fallback_result`. -/
def ftFallbackResult : FollowThroughResult :=
  { swing_completion := ⟨5.0, 0.5, none, none, none⟩
    body_rotation_completion := ⟨5.0, some 0.5, none, none, none, none⟩
    balance_maintenance := ⟨5.0, some 0.5, none, none, none, none⟩
    racket_path := ⟨5.0, 0.5, none, none⟩
    overall_score := 5.0
    issues := ["フォロースルーフェーズが特定できませんでした"]
    recommendations := ["フォロースルーの基本動作を確認しましょう"] }

/-- `FollowThroughAnalyzer.analyze_follow_through`. -/
noncomputable def analyzeFollowThrough (poseResults : List Frame)
    (servePhases : List ServePhase) : FollowThroughResult :=
  match servePhases.find? (fun p => charsHasInfix ("follow".data) (p.name.toLower.data)) with
  | none => ftFallbackResult
  | some ph =>
    let frames := sliceClamped poseResults ph.start_frame ph.end_frame
    let swing := analyzeSwingCompletion frames
    let rotation := analyzeBodyRotationCompletion frames
    let balance := analyzeBalanceMaintenance frames
    let racket := analyzeRacketPath frames
    let overallScore : ℝ := (swing.score : ℝ) * 0.3 + rotation.score * 0.25 +
      balance.score * 0.25 + racket.score * 0.2
    { swing_completion := swing
      body_rotation_completion := rotation
      balance_maintenance := balance
      racket_path := racket
      overall_score := overallScore
      issues := ftCollectIssues swing rotation balance racket
      recommendations := ftRecommendations overallScore }

/-- Video metadata extracted by `_extract_video_metadata`; `detection_rate`
is absent (`none`) only in the empty-input branch. -/
structure VideoMetadata where
  total_frames : ℕ
  duration : ℚ
  fps : ℚ
  detected_frames : ℕ
  detection_rate : Option ℚ
  deriving DecidableEq, Repr

/-- `MotionAnalyzer._extract_video_metadata`. -/
def extractVideoMetadata (poseResults : List Frame) : VideoMetadata :=
  match poseResults with
  | [] => ⟨0, 0, 0, 0, none⟩
  | f :: _ =>
    let totalFrames := poseResults.length
    let detectedFrames := detectedCount poseResults
    let rate : Option ℚ := some ((detectedFrames : ℚ) / (totalFrames : ℚ))
    if 1 < poseResults.length then
      let firstTimestamp := f.timestamp.getD 0
      let lastTimestamp := ((poseResults.getLastD f).timestamp).getD 0
      if lastTimestamp > firstTimestamp then
        let dur := lastTimestamp - firstTimestamp
        ⟨totalFrames, dur,
          if dur > 0 then ((totalFrames : ℚ) - 1) / dur else 30,
          detectedFrames, rate⟩
      else ⟨totalFrames, (totalFrames : ℚ) / 30, 30, detectedFrames, rate⟩
    else ⟨totalFrames, (totalFrames : ℚ) / 30, 30, detectedFrames, rate⟩

/-- The six full per-category results (the `analysis_dict` of
`analyze_serve_motion`). -/
structure TechnicalAnalysisFull where
  knee_movement : KneeResult
  elbow_position : ElbowResult
  toss_trajectory : TossResult
  body_rotation : RotationResult
  timing : TimingResult
  follow_through : FollowThroughResult

/-- The fixed category weights of `calculate_overall_score`. -/
def overallScoreWeights : List (String × ℝ) :=
  [("knee_movement", 0.05), ("elbow_position", 0.20), ("toss_trajectory", 0.15),
   ("body_rotation", 0.30), ("timing", 0.05), ("follow_through", 0.25)]

/-- Category lookup used by `calculate_overall_score`
(`analysis_results[category].get('overall_score', 0.0)`). -/
noncomputable def categoryOverallScore (ta : TechnicalAnalysisFull) (c : String) : ℝ :=
  if c = "knee_movement" then ta.knee_movement.overall_score
  else if c = "elbow_position" then ta.elbow_position.overall_score
  else if c = "toss_trajectory" then ta.toss_trajectory.overall_score
  else if c = "body_rotation" then ta.body_rotation.overall_score
  else if c = "timing" then (ta.timing.overall_score : ℝ)
  else if c = "follow_through" then ta.follow_through.overall_score
  else 0

/-- `MotionAnalyzer.calculate_overall_score`: weighted sum over the six
categories (all six are always present in the dictionary it receives). -/
noncomputable def calculateOverallScore (ta : TechnicalAnalysisFull) : ℝ :=
  (overallScoreWeights.map (fun w => categoryOverallScore ta w.1 * w.2)).sum

/-- `MotionAnalyzer._generate_recommendations`: concatenation in the fixed
category order of the dictionary literal. -/
noncomputable def generateRecommendations (ta : TechnicalAnalysisFull) : List String :=
  ta.knee_movement.recommendations ++ ta.elbow_position.recommendations ++
  ta.toss_trajectory.recommendations ++ ta.body_rotation.recommendations ++
  ta.timing.recommendations ++ ta.follow_through.recommendations

/-- One value of the `serve_phases` output dictionary. -/
structure PhaseSummary where
  start_frame : ℤ
  end_frame : ℤ
  duration : ℚ
  key_events : List String
  deriving DecidableEq, Repr

/-- One category entry of the insufficient-detection error result. -/
structure InsufficientCat where
  overall_score : ℚ
  issues : List String
  recommendations : List String
  deriving DecidableEq, Repr

/-- The `technical_analysis` output: five bare categories in the
insufficient-detection early return, six full results otherwise. -/
inductive TechnicalAnalysisOut where
  | insufficient (knee_movement elbow_position toss_trajectory body_rotation
      timing : InsufficientCat)
  | full (ta : TechnicalAnalysisFull)

/-- The analysis result dictionary returned by `analyze_serve_motion`. -/
structure AnalysisResult where
  analysis_id : ℤ
  video_metadata : VideoMetadata
  serve_phases : List (String × PhaseSummary)
  technical_analysis : TechnicalAnalysisOut
  overall_score : ℝ
  recommendations : List String

/-- The `'timestamp'` entry of the first frame, when present
(`pose_results[0].get('timestamp', time.time())` falls back to the wall
clock otherwise). -/
def firstTimestampOf (poseResults : List Frame) : Option ℚ :=
  match poseResults with
  | [] => none
  | f :: _ => f.timestamp

/-- `MotionAnalyzer.analyze_serve_motion`.  The wall clock `time.time()` is
passed in explicitly as `now`; `raise ValueError` is `Except.error`. -/
noncomputable def analyzeServeMotion (now : ℚ) (poseResults : List Frame) :
    Except String AnalysisResult :=
  if poseResults = [] then Except.error ("ポーズ検出結果が空です")
  else if detectedCount poseResults < 10 then
    Except.ok
      { analysis_id := pyInt (now * 1000)
        video_metadata := extractVideoMetadata poseResults
        serve_phases := []
        technical_analysis := TechnicalAnalysisOut.insufficient
          ⟨0, ["ポーズ検出不足"], ["動画品質を改善してください"]⟩
          ⟨0, ["ポーズ検出不足"], ["より明確に人体が映る動画を使用してください"]⟩
          ⟨0, ["ポーズ検出不足"], ["照明条件を改善してください"]⟩
          ⟨0, ["ポーズ検出不足"], ["カメラアングルを調整してください"]⟩
          ⟨0, ["ポーズ検出不足"], ["動画の解像度を上げてください"]⟩
        overall_score := 0
        recommendations := ["ポーズ検出が不十分です。動画品質を改善して再度お試しください。"] }
  else
    let servePhases := identifyServePhases poseResults
    let ta : TechnicalAnalysisFull :=
      { knee_movement := analyzeKneeMovement poseResults servePhases
        elbow_position := analyzeElbowPosition poseResults servePhases
        toss_trajectory := analyzeTossTrajectory poseResults servePhases
        body_rotation := analyzeBodyRotation poseResults servePhases
        timing := analyzeTiming poseResults servePhases
        follow_through := analyzeFollowThrough poseResults servePhases }
    Except.ok
      { analysis_id := pyInt (((firstTimestampOf poseResults).getD now) * 1000)
        video_metadata := extractVideoMetadata poseResults
        serve_phases := servePhases.map (fun p =>
          (p.name, ⟨p.start_frame, p.end_frame, p.duration, p.key_events⟩))
        technical_analysis := TechnicalAnalysisOut.full ta
        overall_score := calculateOverallScore ta
        recommendations := generateRecommendations ta }

/-- Claim C6: the aggregator weights are the six fixed values, sum exactly to
1 (hence within 1e-9), the overall score is the weighted sum of the six
category scores, and category scores in [0,10] give an overall score in
[0,10]. -/
theorem c6_overall_score_weights :
    ((overallScoreWeights.map (fun w => w.2)).sum = 1) ∧
    (∀ ta : TechnicalAnalysisFull, calculateOverallScore ta =
      ta.knee_movement.overall_score * 0.05 + ta.elbow_position.overall_score * 0.20 +
      ta.toss_trajectory.overall_score * 0.15 + ta.body_rotation.overall_score * 0.30 +
      (ta.timing.overall_score : ℝ) * 0.05 + ta.follow_through.overall_score * 0.25) ∧
    (∀ ta : TechnicalAnalysisFull,
      0 ≤ ta.knee_movement.overall_score → ta.knee_movement.overall_score ≤ 10 →
      0 ≤ ta.elbow_position.overall_score → ta.elbow_position.overall_score ≤ 10 →
      0 ≤ ta.toss_trajectory.overall_score → ta.toss_trajectory.overall_score ≤ 10 →
      0 ≤ ta.body_rotation.overall_score → ta.body_rotation.overall_score ≤ 10 →
      0 ≤ (ta.timing.overall_score : ℝ) → (ta.timing.overall_score : ℝ) ≤ 10 →
      0 ≤ ta.follow_through.overall_score → ta.follow_through.overall_score ≤ 10 →
      0 ≤ calculateOverallScore ta ∧ calculateOverallScore ta ≤ 10) := by
  have hform : ∀ ta : TechnicalAnalysisFull, calculateOverallScore ta =
      ta.knee_movement.overall_score * 0.05 + ta.elbow_position.overall_score * 0.20 +
      ta.toss_trajectory.overall_score * 0.15 + ta.body_rotation.overall_score * 0.30 +
      (ta.timing.overall_score : ℝ) * 0.05 + ta.follow_through.overall_score * 0.25 := by
    intro ta
    simp only [calculateOverallScore, overallScoreWeights, categoryOverallScore,
      List.map_cons, List.map_nil, List.sum_cons, List.sum_nil]
    simp only [String.reduceEq, if_false, if_true, reduceIte]
    norm_num
    ring
  refine ⟨by simp [overallScoreWeights]; norm_num, hform, ?_⟩
  intro ta h1 h2 h3 h4 h5 h6 h7 h8 h9 h10 h11 h12
  rw [hform ta]
  constructor <;> nlinarith

/-- Witness for C6: all six category scores equal to 7 satisfy the bounds and
give an overall score inside [0,10]. -/
theorem c6_witness :
    (0 : ℝ) ≤ calculateOverallScore
      { knee_movement := ⟨0, 0, 0, 0, 7, [], []⟩
        elbow_position := ⟨0, 0, 0, 0, 7, [], []⟩
        toss_trajectory := ⟨0, 0, 0, none, none, 7, [], []⟩
        body_rotation := ⟨0, 0, 0, 0, 7, [], []⟩
        timing := ⟨0, [], 7, [], []⟩
        follow_through := ⟨⟨0, 0, none, none, none⟩, ⟨0, none, none, none, none, none⟩,
          ⟨0, none, none, none, none, none⟩, ⟨0, 0, none, none⟩, 7, [], []⟩ } ∧
    calculateOverallScore
      { knee_movement := ⟨0, 0, 0, 0, 7, [], []⟩
        elbow_position := ⟨0, 0, 0, 0, 7, [], []⟩
        toss_trajectory := ⟨0, 0, 0, none, none, 7, [], []⟩
        body_rotation := ⟨0, 0, 0, 0, 7, [], []⟩
        timing := ⟨0, [], 7, [], []⟩
        follow_through := ⟨⟨0, 0, none, none, none⟩, ⟨0, none, none, none, none, none⟩,
          ⟨0, none, none, none, none, none⟩, ⟨0, 0, none, none⟩, 7, [], []⟩ } ≤ 10 :=
  c6_overall_score_weights.2.2 _ (by norm_num) (by norm_num) (by norm_num) (by norm_num)
    (by norm_num) (by norm_num) (by norm_num) (by norm_num)
    (by push_cast; norm_num) (by push_cast; norm_num) (by norm_num) (by norm_num)

/-- Claim C7 counterexample: on the empty pose sequence the pipeline raises
`ValueError` instead of returning any aggregate failure result, so no result
carrying overall_score 0 is produced. -/
theorem c7_counterexample :
    analyzeServeMotion 0 [] = Except.error ("ポーズ検出結果が空です") ∧
    ¬ ∃ r : AnalysisResult, analyzeServeMotion 0 [] = Except.ok r := by
  constructor
  · unfold analyzeServeMotion
    rw [if_pos rfl]
  · rintro ⟨r, hr⟩
    unfold analyzeServeMotion at hr
    rw [if_pos rfl] at hr
    exact absurd hr (by simp)

/-- Claim C7 (amended): for the empty pose sequence the pipeline fails fast
by raising `ValueError("ポーズ検出結果が空です")` — an explanatory "no data"
error, before any segmentation and with no category scores produced — rather
than returning an aggregate result with overall_score 0 (that result shape is
produced only for nonempty sequences with fewer than 10 detected frames). -/
theorem c7_amended_empty_input (now : ℚ) :
    analyzeServeMotion now [] = Except.error ("ポーズ検出結果が空です") := by
  unfold analyzeServeMotion
  rw [if_pos rfl]

/-- The frame with no pose and no landmarks, and a 5-frame sequence of it
(below the 10-detected-frames gate). -/
def lowPoseInput : List Frame := List.replicate 5 {}

/-- A 10-frame all-detected sequence with timestamps, used to instantiate the
determinism theorem. -/
def c4Input : List Frame :=
  (List.range 10).map (fun i : ℕ => { timestamp := some ((i : ℚ) / 30), has_pose := true })

/-- Claim C4 counterexample: on a 5-frame sequence with no detected pose, two
runs at wall-clock times 0 and 1 yield different results (the insufficient-
detection `analysis_id` embeds `time.time()`). -/
theorem c4_counterexample :
    analyzeServeMotion 0 lowPoseInput ≠ analyzeServeMotion 1 lowPoseInput := by
  intro h
  unfold analyzeServeMotion at h
  rw [if_neg (by decide), if_pos (by decide)] at h
  have hid := congrArg AnalysisResult.analysis_id (Except.ok.inj h)
  simp only at hid
  have h0 : pyInt ((0 : ℚ) * 1000) = 0 := by unfold pyInt; norm_num
  have h1 : pyInt ((1 : ℚ) * 1000) = 1000 := by unfold pyInt; norm_num
  rw [h0, h1] at hid
  exact absurd hid (by norm_num)

/-- Claim C4 (amended): the analysis result is a deterministic function of
the pose sequence whenever at least 10 frames have a detected pose and the
first frame carries a timestamp; only the insufficient-detection path (and a
missing first timestamp) lets the wall clock into `analysis_id`. -/
theorem c4_amended_determinism (t₁ t₂ : ℚ) (ps : List Frame)
    (hdet : 10 ≤ detectedCount ps) (hts : (firstTimestampOf ps).isSome = true) :
    analyzeServeMotion t₁ ps = analyzeServeMotion t₂ ps := by
  have hne : ps ≠ [] := by
    intro h
    rw [h] at hdet
    simp [detectedCount] at hdet
  obtain ⟨ts, hts'⟩ := Option.isSome_iff_exists.mp hts
  have hgetD : ∀ t : ℚ, (firstTimestampOf ps).getD t = ts := by
    intro t
    rw [hts']
    rfl
  unfold analyzeServeMotion
  rw [if_neg hne, if_neg (by omega), if_neg hne, if_neg (by omega), hgetD t₁, hgetD t₂]

/-- Witness for the amended C4 theorem: a concrete 10-frame sequence with
poses everywhere and a first-frame timestamp gives identical results at two
different wall-clock instants. -/
theorem c4_witness :
    10 ≤ detectedCount c4Input ∧ (firstTimestampOf c4Input).isSome = true ∧
    analyzeServeMotion 0 c4Input = analyzeServeMotion 1 c4Input :=
  ⟨by decide, by decide, c4_amended_determinism 0 1 c4Input (by decide) (by decide)⟩

/-- Projection: the knee-category score of an insufficient-detection result. -/
noncomputable def insufficientKneeScore : Except String AnalysisResult → Option ℚ
  | Except.ok r =>
    match r.technical_analysis with
    | TechnicalAnalysisOut.insufficient k _ _ _ _ => some k.overall_score
    | _ => none
  | _ => none

/-- Claim C2 counterexample: a nonempty 5-frame sequence with no detected
pose (fewer than 10 valid samples for every trajectory) produces a knee
category result scored 0, not the neutral midpoint 5. -/
theorem c2_counterexample :
    lowPoseInput ≠ [] ∧ detectedCount lowPoseInput < 10 ∧
    insufficientKneeScore (analyzeServeMotion 0 lowPoseInput) = some 0 ∧
    (0 : ℚ) ≠ 5 := by
  refine ⟨by decide, by decide, ?_, by norm_num⟩
  unfold analyzeServeMotion
  rw [if_neg (by decide), if_pos (by decide)]
  rfl

/-- Claim C2 (amended): for every nonempty pose sequence with fewer than 10
detected frames the analysis does not raise; it returns the early
insufficient-detection result whose five category entries each carry score
0.0 (not the neutral 5.0) together with an explicit
insufficiency issue; and whenever a wrist trajectory has fewer than 10 valid
samples the segmenter falls back to the proportional fixed-ratio phases. -/
theorem c2_amended_insufficient :
    (∀ (t : ℚ) (ps : List Frame), ps ≠ [] → detectedCount ps < 10 →
      analyzeServeMotion t ps = Except.ok
        { analysis_id := pyInt (t * 1000)
          video_metadata := extractVideoMetadata ps
          serve_phases := []
          technical_analysis := TechnicalAnalysisOut.insufficient
            ⟨0, ["ポーズ検出不足"], ["動画品質を改善してください"]⟩
            ⟨0, ["ポーズ検出不足"], ["より明確に人体が映る動画を使用してください"]⟩
            ⟨0, ["ポーズ検出不足"], ["照明条件を改善してください"]⟩
            ⟨0, ["ポーズ検出不足"], ["カメラアングルを調整してください"]⟩
            ⟨0, ["ポーズ検出不足"], ["動画の解像度を上げてください"]⟩
          overall_score := 0
          recommendations := ["ポーズ検出が不十分です。動画品質を改善して再度お試しください。"] }) ∧
    (∀ ps : List Frame,
      (extractLandmarkTrajectory ps (fun l => l.right_wrist)).reduceOption.length < 10 ∨
      (extractLandmarkTrajectory ps (fun l => l.left_wrist)).reduceOption.length < 10 →
      identifyServePhases ps = createFallbackPhases (ps.length : ℤ)) := by
  constructor
  · intro t ps hne hdet
    unfold analyzeServeMotion
    rw [if_neg hne, if_pos hdet]
  · intro ps hlow
    unfold identifyServePhases
    by_cases hempty : extractLandmarkTrajectory ps (fun l => l.right_wrist) = [] ∨
        extractLandmarkTrajectory ps (fun l => l.left_wrist) = []
    · rw [if_pos hempty]
    · rw [if_neg hempty, if_pos hlow]

/-- Witness for the amended C2 theorem: the concrete 5-frame no-pose input. -/
theorem c2_witness :
    (lowPoseInput ≠ [] ∧ detectedCount lowPoseInput < 10 ∧
      analyzeServeMotion 0 lowPoseInput = Except.ok
        { analysis_id := pyInt (0 * 1000)
          video_metadata := extractVideoMetadata lowPoseInput
          serve_phases := []
          technical_analysis := TechnicalAnalysisOut.insufficient
            ⟨0, ["ポーズ検出不足"], ["動画品質を改善してください"]⟩
            ⟨0, ["ポーズ検出不足"], ["より明確に人体が映る動画を使用してください"]⟩
            ⟨0, ["ポーズ検出不足"], ["照明条件を改善してください"]⟩
            ⟨0, ["ポーズ検出不足"], ["カメラアングルを調整してください"]⟩
            ⟨0, ["ポーズ検出不足"], ["動画の解像度を上げてください"]⟩
          overall_score := 0
          recommendations := ["ポーズ検出が不十分です。動画品質を改善して再度お試しください。"] }) ∧
    ((extractLandmarkTrajectory lowPoseInput (fun l => l.right_wrist)).reduceOption.length < 10 ∧
      identifyServePhases lowPoseInput = createFallbackPhases (lowPoseInput.length : ℤ)) :=
  ⟨⟨by decide, by decide,
      c2_amended_insufficient.1 0 lowPoseInput (by decide) (by decide)⟩,
    by decide,
    c2_amended_insufficient.2 lowPoseInput (Or.inl (by decide))⟩

/-- Claim C10: when no valid knee joint angle exists at any frame, the knee
scorer substitutes max_bend_angle = 180 degrees, which lands in the
"severely too shallow" band: the -6.0 depth penalty applies (depth score
4.0) with its issue string, instead of any neutral insufficient-data
score. -/
theorem c10_knee_default_angle (ps : List Frame) (phases : List ServePhase)
    (h : ∀ a ∈ kneeAngles ps, a = none) :
    (analyzeKneeMovement ps phases).max_bend_angle = 180 ∧
    (analyzeKneeMovement ps phases).depth_score = 4 ∧
    (analyzeKneeMovement ps phases).issues.contains ("膝の曲げが大幅に浅すぎます") = true := by
  have haux : ∀ l : List (Option ℝ), (∀ a ∈ l, a = none) → l.reduceOption = [] := by
    intro l
    induction l with
    | nil => intro _; rfl
    | cons a as ih =>
      intro hl
      rw [hl a (by simp), List.reduceOption_cons_of_none]
      exact ih (fun x hx => hl x (by simp [hx]))
  have hred : (kneeAngles ps).reduceOption = [] := haux _ h
  have h180 : ¬ ((kneeAngles ps).reduceOption ≠ []) := by rw [hred]; simp
  refine ⟨?_, ?_, ?_⟩
  · simp only [analyzeKneeMovement]
    simp only [if_neg h180]
  · simp only [analyzeKneeMovement]
    simp only [if_neg h180, if_pos (by norm_num : (180 : ℝ) > 170)]
    norm_num
  · simp only [analyzeKneeMovement]
    simp only [if_neg h180, if_pos (by norm_num : (180 : ℝ) > 170)]
    simp

/-- Witness for C10: the 5-frame no-pose input has no valid knee angle at any
frame, and the knee scorer lands in the severe-shallow band. -/
theorem c10_witness :
    (∀ a ∈ kneeAngles lowPoseInput, a = none) ∧
    (analyzeKneeMovement lowPoseInput []).max_bend_angle = 180 ∧
    (analyzeKneeMovement lowPoseInput []).depth_score = 4 ∧
    (analyzeKneeMovement lowPoseInput []).issues.contains ("膝の曲げが大幅に浅すぎます") = true := by
  have hall : ∀ a ∈ kneeAngles lowPoseInput, a = none := by
    intro a ha
    simp [kneeAngles, lowPoseInput] at ha
    exact ha
  exact ⟨hall, c10_knee_default_angle lowPoseInput [] hall⟩

/-- Six left-wrist points moving only horizontally with steps 1,1,1,1,5. -/
def ptsA : List Landmark :=
  [⟨0, 1/2⟩, ⟨1, 1/2⟩, ⟨2, 1/2⟩, ⟨3, 1/2⟩, ⟨4, 1/2⟩, ⟨9, 1/2⟩]

/-- Three left-wrist points moving only horizontally with steps 1,5. -/
def ptsB : List Landmark := [⟨0, 1/2⟩, ⟨1, 1/2⟩, ⟨6, 1/2⟩]

/-- Pose sequence carrying the points of `ptsA` as left-wrist samples. -/
def c3InputA : List Frame :=
  ptsA.map (fun p => { has_pose := true, landmarks := { left_wrist := some p } })

/-- Pose sequence carrying the points of `ptsB` as left-wrist samples. -/
def c3InputB : List Frame :=
  ptsB.map (fun p => { has_pose := true, landmarks := { left_wrist := some p } })

lemma ptsA_velocities : velocityList ptsA = [1, 1, 1, 1, 5] := by
  simp only [ptsA, velocityList]
  norm_num
  rw [show (25 : ℝ) = 5 ^ 2 from by norm_num, Real.sqrt_sq (by norm_num)]

lemma ptsB_velocities : velocityList ptsB = [1, 5] := by
  simp only [ptsB, velocityList]
  norm_num
  rw [show (25 : ℝ) = 5 ^ 2 from by norm_num, Real.sqrt_sq (by norm_num)]

lemma ptsA_mean : listMean (velocityList ptsA) = 9 / 5 := by
  rw [ptsA_velocities]
  simp [listMean]
  norm_num

lemma ptsB_mean : listMean (velocityList ptsB) = 3 := by
  rw [ptsB_velocities]
  simp [listMean]
  norm_num

lemma ptsA_std : listStd (velocityList ptsA) = 8 / 5 := by
  unfold listStd
  rw [ptsA_mean, ptsA_velocities]
  have : listMean ([1, 1, 1, 1, 5].map (fun v : ℝ => (v - 9 / 5) ^ 2)) = 64 / 25 := by
    simp [listMean]
    norm_num
  rw [this, show (64 / 25 : ℝ) = (8 / 5) ^ 2 from by norm_num,
    Real.sqrt_sq (by norm_num)]

lemma ptsB_std : listStd (velocityList ptsB) = 2 := by
  unfold listStd
  rw [ptsB_mean, ptsB_velocities]
  have : listMean ([1, 5].map (fun v : ℝ => (v - 3) ^ 2)) = 4 := by
    simp [listMean]
    norm_num
  rw [this, show (4 : ℝ) = 2 ^ 2 from by norm_num, Real.sqrt_sq (by norm_num)]

lemma ptsA_smooth : trajectorySmoothness (ptsA.map some) = 1 / 9 := by
  have hred : (ptsA.map some).reduceOption = ptsA := by
    simp [ptsA]
  unfold trajectorySmoothness
  rw [if_neg (by simp [ptsA]), hred, if_neg (by simp [ptsA]),
    if_neg (by rw [ptsA_velocities]; norm_num), if_neg (by rw [ptsA_mean]; norm_num),
    ptsA_std, ptsA_mean]
  rw [show (8 / 5 : ℝ) / (9 / 5) = 8 / 9 from by norm_num]
  rw [min_eq_left (by norm_num), max_eq_left (by norm_num)]
  norm_num

lemma ptsB_smooth : trajectorySmoothness (ptsB.map some) = 1 / 3 := by
  have hred : (ptsB.map some).reduceOption = ptsB := by
    simp [ptsB]
  unfold trajectorySmoothness
  rw [if_neg (by simp [ptsB]), hred, if_neg (by simp [ptsB]),
    if_neg (by rw [ptsB_velocities]; norm_num), if_neg (by rw [ptsB_mean]; norm_num),
    ptsB_std, ptsB_mean]
  rw [show (2 : ℝ) / 3 = 2 / 3 from by norm_num]
  rw [min_eq_left (by norm_num), max_eq_left (by norm_num)]
  norm_num

lemma c3A_traj :
    extractLandmarkTrajectory c3InputA (fun l => l.left_wrist) = ptsA.map some := by
  simp only [extractLandmarkTrajectory, c3InputA, List.map_map]
  rfl

lemma c3B_traj :
    extractLandmarkTrajectory c3InputB (fun l => l.left_wrist) = ptsB.map some := by
  simp only [extractLandmarkTrajectory, c3InputB, List.map_map]
  rfl

lemma c3A_eq : analyzeTossTrajectory c3InputA [] = tossMainResult ptsA := by
  simp only [analyzeTossTrajectory, c3A_traj, List.find?_nil]
  rw [if_neg (by simp [ptsA])]
  rw [show (ptsA.map some).reduceOption = ptsA from by simp [ptsA]]
  rw [if_neg (by simp [ptsA])]

lemma c3B_eq : analyzeTossTrajectory c3InputB [] = tossMainResult ptsB := by
  simp only [analyzeTossTrajectory, c3B_traj, List.find?_nil]
  rw [if_neg (by simp [ptsB])]
  rw [show (ptsB.map some).reduceOption = ptsB from by simp [ptsB]]
  rw [if_neg (by simp [ptsB])]

lemma c3A_fields :
    (tossMainResult ptsA).height_score = some 10 ∧
    (tossMainResult ptsA).distance_score = some 6 ∧
    (tossMainResult ptsA).consistency_score = 1 / 9 ∧
    (tossMainResult ptsA).overall_score = 154 / 27 := by
  have hmin : listMinQ (List.map (fun p => p.y) ptsA) = 1 / 2 := by
    simp [ptsA, listMinQ]
  have hhead : (ptsA.headD ⟨0, 0⟩).x = 0 := by simp [ptsA]
  have hlast : (ptsA.getLastD ⟨0, 0⟩).x = 9 := by simp [ptsA]
  refine ⟨?_, ?_, ?_, ?_⟩ <;>
    simp only [tossMainResult, hmin, hhead, hlast, ptsA_smooth] <;>
    norm_num

lemma c3B_fields :
    (tossMainResult ptsB).height_score = some 10 ∧
    (tossMainResult ptsB).distance_score = some 6 ∧
    (tossMainResult ptsB).consistency_score = 1 / 3 ∧
    (tossMainResult ptsB).overall_score = 58 / 9 := by
  have hmin : listMinQ (List.map (fun p => p.y) ptsB) = 1 / 2 := by
    simp [ptsB, listMinQ]
  have hhead : (ptsB.headD ⟨0, 0⟩).x = 0 := by simp [ptsB]
  have hlast : (ptsB.getLastD ⟨0, 0⟩).x = 6 := by simp [ptsB]
  refine ⟨?_, ?_, ?_, ?_⟩ <;>
    simp only [tossMainResult, hmin, hhead, hlast, ptsB_smooth] <;>
    norm_num

/-- Claim C3 counterexample: two toss trajectories with identical height
band (score 10), identical distance band (score 6) and smoothness below 0.5
on both — hence, per the claim, the same -4.0 penalty and the same category
score — receive different overall scores, so no smoothness penalty of
-1.0 / -2.5 / -4.0 is applied to the toss category score; the `consistency_penalty`
variable is computed by the source and then discarded. -/
theorem c3_counterexample :
    (analyzeTossTrajectory c3InputA []).height_score = some 10 ∧
    (analyzeTossTrajectory c3InputB []).height_score = some 10 ∧
    (analyzeTossTrajectory c3InputA []).distance_score = some 6 ∧
    (analyzeTossTrajectory c3InputB []).distance_score = some 6 ∧
    (analyzeTossTrajectory c3InputA []).consistency_score < 0.5 ∧
    (analyzeTossTrajectory c3InputB []).consistency_score < 0.5 ∧
    (analyzeTossTrajectory c3InputA []).overall_score ≠
      (analyzeTossTrajectory c3InputB []).overall_score := by
  rw [c3A_eq, c3B_eq]
  refine ⟨c3A_fields.1, c3B_fields.1, c3A_fields.2.1, c3B_fields.2.1, ?_, ?_, ?_⟩
  · rw [c3A_fields.2.2.1]; norm_num
  · rw [c3B_fields.2.2.1]; norm_num
  · rw [c3A_fields.2.2.2, c3B_fields.2.2.2]; norm_num

/-- Claim C3 (amended): at smoothness thresholds 0.7 / 0.6 / 0.5 the toss
scorer computes a penalty variable of 1.0 / 2.5 / 4.0 and appends the
corresponding instability issue, but the penalty is never applied to the
category score: the toss category score is
`(height_score + distance_score + smoothness * 10) / 3`. -/
theorem c3_amended_penalty_unused :
    (∀ s : ℝ, (s < 0.5 → tossConsistencyPenalty s = 4.0 ∧
        tossConsistencyIssues s = ["トスの軌道が大幅に不安定です"]) ∧
      (0.5 ≤ s → s < 0.6 → tossConsistencyPenalty s = 2.5 ∧
        tossConsistencyIssues s = ["トスの軌道が不安定です"]) ∧
      (0.6 ≤ s → s < 0.7 → tossConsistencyPenalty s = 1.0 ∧
        tossConsistencyIssues s = ["トスの軌道がやや不安定です"]) ∧
      (0.7 ≤ s → tossConsistencyPenalty s = 0 ∧ tossConsistencyIssues s = [])) ∧
    (∀ (tossTrajectory : List Landmark) (hs ds : ℚ),
      (tossMainResult tossTrajectory).height_score = some hs →
      (tossMainResult tossTrajectory).distance_score = some ds →
      (tossMainResult tossTrajectory).overall_score =
        ((hs : ℝ) + (ds : ℝ) + (tossMainResult tossTrajectory).consistency_score * 10) / 3) := by
  constructor
  · intro s
    refine ⟨fun h => ?_, fun h1 h2 => ?_, fun h1 h2 => ?_, fun h => ?_⟩ <;>
      unfold tossConsistencyPenalty tossConsistencyIssues
    · rw [if_pos h, if_pos h]
      exact ⟨rfl, rfl⟩
    · rw [if_neg (by linarith), if_pos h2, if_neg (by linarith), if_pos h2]
      exact ⟨rfl, rfl⟩
    · rw [if_neg (by linarith), if_neg (by linarith), if_pos h2,
        if_neg (by linarith), if_neg (by linarith), if_pos h2]
      exact ⟨rfl, rfl⟩
    · rw [if_neg (by linarith), if_neg (by linarith), if_neg (by linarith),
        if_neg (by linarith), if_neg (by linarith), if_neg (by linarith)]
      exact ⟨rfl, rfl⟩
  · intro tt hs ds hh hd
    simp only [tossMainResult] at hh hd ⊢
    rw [← Option.some.inj hh, ← Option.some.inj hd]

/-- Witness for the amended C3 theorem: the threshold cases at concrete
smoothness values and the score formula at the concrete trajectory `ptsA`. -/
theorem c3_witness :
    (tossConsistencyPenalty 0.4 = 4.0 ∧
      tossConsistencyIssues 0.4 = ["トスの軌道が大幅に不安定です"]) ∧
    (tossConsistencyPenalty 0.55 = 2.5 ∧
      tossConsistencyIssues 0.55 = ["トスの軌道が不安定です"]) ∧
    (tossConsistencyPenalty 0.65 = 1.0 ∧
      tossConsistencyIssues 0.65 = ["トスの軌道がやや不安定です"]) ∧
    (tossConsistencyPenalty 0.9 = 0 ∧ tossConsistencyIssues 0.9 = []) ∧
    (tossMainResult ptsA).overall_score =
      ((10 : ℚ) + ((6 : ℚ) : ℝ) + (tossMainResult ptsA).consistency_score * 10) / 3 :=
  ⟨(c3_amended_penalty_unused.1 0.4).1 (by norm_num),
   (c3_amended_penalty_unused.1 0.55).2.1 (by norm_num) (by norm_num),
   (c3_amended_penalty_unused.1 0.65).2.2.1 (by norm_num) (by norm_num),
   (c3_amended_penalty_unused.1 0.9).2.2.2 (by norm_num),
   c3_amended_penalty_unused.2 ptsA 10 6 c3A_fields.1 c3A_fields.2.1⟩
